import Mathlib

/-!
Verification of the Mach-O signing module (`apple-codesign/src/macho_signing.rs`).

The development shallowly embeds the signing module: byte buffers are
`List Nat` (one entry per byte), the structural view of a parsed Mach-O
(provided by `macho.rs`, outside this module) is a structure of fields, and
the collaborating oracles (blob serialization, CMS, digesting, requirement
derivation) are fields of an `Externals` record.  Rust panics (assertion
failures and out-of-bounds slicing) are modelled as a distinct error
constructor from returned `Err` values.
-/

namespace MachoSigning

/-- Elements `a ≤ i < b` of a list, mirroring a Rust slice `&l[a..b]`. -/
def listSlice (l : List Nat) (a b : Nat) : List Nat := (l.take b).drop a

/-- Extract the success value of an `Except`, with a default. -/
def okD {ε α : Type} (e : Except ε α) (d : α) : α :=
  match e with
  | .ok v => v
  | .error _ => d

/-- Whether an `Except` is a success. -/
def isOkE {ε α : Type} (e : Except ε α) : Bool :=
  match e with
  | .ok _ => true
  | .error _ => false

/-- Hexadecimal rendering of a natural number, for error message text. -/
def hexString (n : Nat) : String := String.mk (Nat.toDigits 16 n)

instance {ε α : Type} [DecidableEq ε] [DecidableEq α] : DecidableEq (Except ε α) :=
  fun a b =>
    match a, b with
    | .ok x, .ok y =>
      if h : x = y then isTrue (by rw [h])
      else isFalse (by intro hc; cases hc; exact h rfl)
    | .error x, .error y =>
      if h : x = y then isTrue (by rw [h])
      else isFalse (by intro hc; cases hc; exact h rfl)
    | .ok _, .error _ => isFalse (by intro hc; cases hc)
    | .error _, .ok _ => isFalse (by intro hc; cases hc)

/-! ## Constants from `goblin` and the code-signing data model -/

def LC_CODE_SIGNATURE : Nat := 0x1d

def SIZEOF_LINKEDIT_DATA_COMMAND : Nat := 16

def SEG_LINKEDIT : String := "__LINKEDIT"

def SEG_PAGEZERO : String := "__PAGEZERO"

def MH_EXECUTE : Nat := 2

/-- `CodeSignatureFlags::ADHOC` bit. -/
def ADHOC : Nat := 0x2

/-- `CodeSignatureFlags::LINKER_SIGNED` bit. -/
def LINKER_SIGNED : Nat := 0x20000

/-- `CodeSignatureFlags::RUNTIME` bit. -/
def RUNTIME : Nat := 0x10000

/-- `ExecutableSegmentFlags::MAIN_BINARY` bit. -/
def MAIN_BINARY : Nat := 0x1

/-- `u32::MAX`. -/
def U32_MAX : Nat := 0xffffffff

/-- bitflags `contains`: all bits of `b` are set in `f`. -/
def flagsContains (f b : Nat) : Bool := (f &&& b) == b

/-- bitflags difference (`-=`): clear in `a` every bit set in `b`. -/
def flagsDiff (a b : Nat) : Nat := a &&& (a ^^^ b)

/-! ## Endianness context and integer encoding -/

inductive Endian where
  | little
  | big
  deriving DecidableEq, Repr

/-- The parse context recovered by `parse_magic_and_ctx`: endianness plus
bitness. -/
structure Ctx where
  le : Endian
  is64 : Bool
  deriving DecidableEq, Repr

/-- Byte `k` (little-endian position) of `n`. -/
def byteAt (n k : Nat) : Nat := n / 256 ^ k % 256

/-- Encode a `u32` in the given endianness. -/
def put32 (e : Endian) (n : Nat) : List Nat :=
  match e with
  | .little => [byteAt n 0, byteAt n 1, byteAt n 2, byteAt n 3]
  | .big => [byteAt n 3, byteAt n 2, byteAt n 1, byteAt n 0]

/-- Encode a `u64` in the given endianness. -/
def put64 (e : Endian) (n : Nat) : List Nat :=
  match e with
  | .little => [byteAt n 0, byteAt n 1, byteAt n 2, byteAt n 3,
                byteAt n 4, byteAt n 5, byteAt n 6, byteAt n 7]
  | .big => [byteAt n 7, byteAt n 6, byteAt n 5, byteAt n 4,
             byteAt n 3, byteAt n 2, byteAt n 1, byteAt n 0]

/-- Encode a 16-byte segment name field. -/
def putSegname (s : String) : List Nat :=
  let cs := (s.toList.map Char.toNat).take 16
  cs ++ List.replicate (16 - cs.length) 0

/-! ## Errors -/

/-- The error kinds of `AppleCodesignError` reachable from the signing
module. -/
inductive AppleCodesignError where
  | MissingLinkedit
  | MachOWrite (detail : String)
  | SignatureDataTooLarge
  | NoIdentifier
  | Other (detail : String)
  deriving DecidableEq, Repr

/-- A run of Rust code either returns (`ok`), returns an error (`err`), or
panics (`panicked`); panics model `assert!` failures and out-of-bounds
slice indexing. -/
inductive RunError where
  | err (e : AppleCodesignError)
  | panicked (msg : String)
  deriving DecidableEq, Repr

/-! ## Data model: load commands, segments, the Mach-O structural view -/

/-- `goblin::mach::load_command::LinkeditDataCommand`. -/
structure LinkeditDataCommand where
  cmd : Nat
  cmdsize : Nat
  dataoff : Nat
  datasize : Nat
  deriving DecidableEq, Repr

/-- The fields shared by `SegmentCommand32` and `SegmentCommand64`. -/
structure SegmentCommand where
  cmd : Nat
  cmdsize : Nat
  segname : String
  vmaddr : Nat
  vmsize : Nat
  fileoff : Nat
  filesize : Nat
  maxprot : Nat
  initprot : Nat
  nsects : Nat
  flags : Nat
  deriving DecidableEq, Repr

/-- A parsed load command: the variants the rewriter distinguishes, plus the
raw bytes that follow the fixed-size command header (`trailing`); any other
command is kept as its raw bytes. -/
inductive LoadCommand where
  | codeSignature (c : LinkeditDataCommand) (trailing : List Nat)
  | segment32 (s : SegmentCommand) (trailing : List Nat)
  | segment64 (s : SegmentCommand) (trailing : List Nat)
  | other (raw : List Nat)
  deriving DecidableEq, Repr

/-- Whether a load command is `LC_CODE_SIGNATURE`. -/
def LoadCommand.isCodeSignatureLC : LoadCommand → Bool
  | .codeSignature _ _ => true
  | _ => false

/-- A segment as yielded by `segments_by_file_offset`: name, file offset,
file size, and the data slice backing it. -/
structure Segment where
  segname : String
  fileoff : Nat
  filesize : Nat
  data : List Nat
  deriving DecidableEq, Repr

/-- `goblin` Mach-O header fields. -/
structure MachOHeader where
  magic : Nat
  cputype : Nat
  cpusubtype : Nat
  filetype : Nat
  ncmds : Nat
  sizeofcmds : Nat
  flags : Nat
  reserved : Nat
  deriving DecidableEq, Repr

/-- Targeting information recovered from `LC_BUILD_VERSION` /
`LC_VERSION_MIN_*` load commands. -/
structure Targeting where
  platform : String
  minimum_os_version : Nat × Nat × Nat
  sdk_version : Nat × Nat × Nat
  deriving DecidableEq, Repr

/-- Digest kinds, each with a fixed output length. -/
inductive DigestType where
  | sha1
  | sha256
  | sha384
  | sha512
  deriving DecidableEq, Repr

/-- Modelled from the spec: each `DigestKind` has a fixed output length
(`hash_len` lives in `cryptography.rs`, outside the signing module). -/
def digest_len : DigestType → Nat
  | .sha1 => 20
  | .sha256 => 32
  | .sha384 => 48
  | .sha512 => 64

/-- The structural view `MachOBinary` exposes over an input buffer
(implemented by `macho.rs`, outside the signing module, and consumed here):
raw bytes, parse context, header, load commands with their trailing bytes,
segments in file-offset order, the `__LINKEDIT` bytes before any current
signature, the code-limit offset, the capability-check outcome, the
executable segment boundary, targeting, and the per-page code digests. -/
structure MachOBinary where
  data : List Nat
  ctx : Ctx
  header : MachOHeader
  load_commands : List LoadCommand
  segments : List Segment
  linkedit_data_before_signature : Option (List Nat)
  code_limit_binary_offset : Nat
  signing_capability_error : Option AppleCodesignError
  executable_segment_boundary : Nat × Nat
  find_targeting : Option Targeting
  code_digests : DigestType → Nat → List (List Nat)

/-- Modelled from the spec: `signature_load_command (Option)` is the derived
query for the first `LC_CODE_SIGNATURE` load command
(`MachOBinary::code_signature_load_command` lives in `macho.rs`, outside the
signing module). -/
def MachOBinary.code_signature_load_command (m : MachOBinary) :
    Option LinkeditDataCommand :=
  m.load_commands.findSome? fun lc =>
    match lc with
    | .codeSignature c _ => some c
    | _ => none

/-- Modelled from the spec: `is_executable` holds when the file type is
`MH_EXECUTE` (implemented in `macho.rs`, outside the signing module). -/
def MachOBinary.is_executable (m : MachOBinary) : Bool :=
  m.header.filetype == MH_EXECUTE

/-- Modelled from the spec:
`code_digests_size(kind, page) = ceil(code_limit_offset / page) * digest_len(kind)`
(`MachOBinary::code_digests_size` lives in `macho.rs`, outside the signing
module). -/
def MachOBinary.code_digests_size (m : MachOBinary) (kind : DigestType)
    (page : Nat) : Nat :=
  (m.code_limit_binary_offset + page - 1) / page * digest_len kind

/-! ## The Mach-O rewriter (`create_macho_with_signature`) -/

/-- Padding that 16-aligns the signature start (macho_signing.rs lines
63-64). -/
def signaturePaddingLength (code_limit : Nat) : Nat :=
  let remainder := code_limit % 16
  if remainder = 0 then 0 else 16 - remainder

/-- The 16-aligned file offset at which signature data is written
(macho_signing.rs lines 62-66). -/
def MachOBinary.signatureFileOffset (m : MachOBinary) : Nat :=
  m.code_limit_binary_offset + signaturePaddingLength m.code_limit_binary_offset

/-- The rewritten `__LINKEDIT` file size (macho_signing.rs lines 68-69). -/
def MachOBinary.newLinkeditSegmentSize (m : MachOBinary) (sigLen : Nat) : Nat :=
  (match m.linkedit_data_before_signature with
   | some l => l.length
   | none => 0)
  + signaturePaddingLength m.code_limit_binary_offset + sigLen

/-- Round a segment size up to the nearest 16 kb boundary (macho_signing.rs
lines 73-78). -/
def roundUp16k (size : Nat) : Nat :=
  let remainder := size % 16384
  if remainder = 0 then size else size + 16384 - remainder

/-- The rewritten `__LINKEDIT` vmsize (macho_signing.rs lines 71-78). -/
def MachOBinary.newLinkeditSegmentVmsize (m : MachOBinary) (sigLen : Nat) : Nat :=
  roundUp16k (m.newLinkeditSegmentSize sigLen)

/-- The header written out: counts bumped when a signature load command must
be introduced (macho_signing.rs lines 93-97). -/
def outputHeader (m : MachOBinary) : MachOHeader :=
  if m.code_signature_load_command.isNone then
    { m.header with
      ncmds := m.header.ncmds + 1
      sizeofcmds := m.header.sizeofcmds + SIZEOF_LINKEDIT_DATA_COMMAND }
  else m.header

/-- Serialize a Mach-O header (`iowrite_with(header, ctx)`): 28 bytes for
32-bit files, 32 bytes (with `reserved`) for 64-bit files. -/
def serializeHeader (ctx : Ctx) (h : MachOHeader) : List Nat :=
  put32 ctx.le h.magic ++ put32 ctx.le h.cputype ++ put32 ctx.le h.cpusubtype
  ++ put32 ctx.le h.filetype ++ put32 ctx.le h.ncmds ++ put32 ctx.le h.sizeofcmds
  ++ put32 ctx.le h.flags ++ (if ctx.is64 then put32 ctx.le h.reserved else [])

/-- Serialize a `LinkeditDataCommand` (16 bytes). -/
def serializeLinkeditData (e : Endian) (c : LinkeditDataCommand) : List Nat :=
  put32 e c.cmd ++ put32 e c.cmdsize ++ put32 e c.dataoff ++ put32 e c.datasize

/-- Serialize a `SegmentCommand32` (56 bytes). -/
def serializeSegment32 (e : Endian) (s : SegmentCommand) : List Nat :=
  put32 e s.cmd ++ put32 e s.cmdsize ++ putSegname s.segname
  ++ put32 e s.vmaddr ++ put32 e s.vmsize ++ put32 e s.fileoff ++ put32 e s.filesize
  ++ put32 e s.maxprot ++ put32 e s.initprot ++ put32 e s.nsects ++ put32 e s.flags

/-- Serialize a `SegmentCommand64` (72 bytes). -/
def serializeSegment64 (e : Endian) (s : SegmentCommand) : List Nat :=
  put32 e s.cmd ++ put32 e s.cmdsize ++ putSegname s.segname
  ++ put64 e s.vmaddr ++ put64 e s.vmsize ++ put64 e s.fileoff ++ put64 e s.filesize
  ++ put32 e s.maxprot ++ put32 e s.initprot ++ put32 e s.nsects ++ put32 e s.flags

/-- The original bytes of a load command in the input file
(`&macho.data[offset..offset + cmdsize]`): the fixed-size header followed by
its trailing bytes. -/
def LoadCommand.originalBytes (ctx : Ctx) : LoadCommand → List Nat
  | .codeSignature c t => serializeLinkeditData ctx.le c ++ t
  | .segment32 s t => serializeSegment32 ctx.le s ++ t
  | .segment64 s t => serializeSegment64 ctx.le s ++ t
  | .other raw => raw

/-- Emit one load command (macho_signing.rs lines 106-164): the
`LC_CODE_SIGNATURE` command gets the new data offset and size, a
`__LINKEDIT` segment command gets the new file and vm sizes, everything
else is reflected unchanged; bytes beyond the fixed-size header are
preserved. -/
def emitLoadCommand (ctx : Ctx) (sigOff sigLen newSize newVm : Nat) :
    LoadCommand → List Nat
  | .codeSignature c t =>
      serializeLinkeditData ctx.le
        { c with dataoff := sigOff % 2 ^ 32, datasize := sigLen % 2 ^ 32 } ++ t
  | .segment32 s t =>
      (if s.segname = SEG_LINKEDIT then
        serializeSegment32 ctx.le
          { s with filesize := newSize % 2 ^ 32, vmsize := newVm % 2 ^ 32 }
      else serializeSegment32 ctx.le s) ++ t
  | .segment64 s t =>
      (if s.segname = SEG_LINKEDIT then
        serializeSegment64 ctx.le
          { s with filesize := newSize % 2 ^ 64, vmsize := newVm % 2 ^ 64 }
      else serializeSegment64 ctx.le s) ++ t
  | .other raw => raw

/-- The header, the rewritten load commands, and — when the input had no
`LC_CODE_SIGNATURE` — a freshly constructed signature load command
(macho_signing.rs lines 99-182). -/
def emitHeaderAndCommands (m : MachOBinary) (sigOff sigLen newSize newVm : Nat) :
    List Nat :=
  serializeHeader m.ctx (outputHeader m)
  ++ (m.load_commands.map (emitLoadCommand m.ctx sigOff sigLen newSize newVm)).flatten
  ++ (if m.load_commands.any LoadCommand.isCodeSignatureLC then []
      else serializeLinkeditData m.ctx.le
        { cmd := LC_CODE_SIGNATURE, cmdsize := SIZEOF_LINKEDIT_DATA_COMMAND,
          dataoff := sigOff % 2 ^ 32, datasize := sigLen % 2 ^ 32 })

/-- The detail string of the segment-corruption error (macho_signing.rs
lines 223-227). -/
def machOWriteDetail (cursor fileoff : Nat) : String :=
  "Mach-O segment corruption: cursor at 0x" ++ hexString cursor
  ++ " but segment begins at 0x" ++ hexString fileoff ++ " (please report this bug)"

/-- Cursor adjustment before a segment is written (macho_signing.rs lines
194-230): copy gap bytes when the cursor is behind, pass the zero-fileoff
and first-written-segment exemptions through, and fail with `MachOWrite` on
any other overrun. -/
def segmentPad (m : MachOBinary) (out : List Nat) (wroteNonEmpty : Bool)
    (seg : Segment) : Except RunError (List Nat) :=
  if out.length < seg.fileoff then
    if seg.fileoff ≤ m.data.length then
      .ok (out ++ listSlice m.data out.length seg.fileoff)
    else .error (.panicked ("slice index out of bounds of macho.data"))
  else if seg.fileoff < out.length then
    if seg.fileoff = 0 then .ok out
    else if wroteNonEmpty = false then .ok out
    else .error (.err (.MachOWrite (machOWriteDetail out.length seg.fileoff)))
  else .ok out

/-- Write one segment's data (macho_signing.rs lines 232-265): `__LINKEDIT`
gets the retained bytes, the alignment padding and the signature (with the
two assertions on the cursor); any other segment is copied, writing only the
bytes past the cursor when it overlaps already-written data.  The returned
boolean is the updated `wrote_non_empty_segment` flag; an overlapping empty
segment leaves it untouched (the `continue`). -/
def writeSegmentData (m : MachOBinary) (sigOff padLen : Nat) (sigData : List Nat)
    (out : List Nat) (wroteNonEmpty : Bool) (seg : Segment) :
    Except RunError (List Nat × Bool) :=
  if seg.segname = SEG_LINKEDIT then
    match m.linkedit_data_before_signature with
    | none => .error (.panicked ("__LINKEDIT segment data should resolve"))
    | some dataBefore =>
      if (out ++ dataBefore ++ List.replicate padLen 0).length ≠ sigOff then
        .error (.panicked ("assertion failed: cursor.position() == signature_file_offset"))
      else if (out ++ dataBefore ++ List.replicate padLen 0).length % 16 ≠ 0 then
        .error (.panicked ("assertion failed: cursor.position() % 16 == 0"))
      else .ok (out ++ dataBefore ++ List.replicate padLen 0 ++ sigData, true)
  else
    if seg.fileoff < out.length then
      if seg.data = [] then .ok (out, wroteNonEmpty)
      else if out.length ≤ seg.filesize ∧ seg.filesize ≤ seg.data.length then
        .ok (out ++ listSlice seg.data out.length seg.filesize, true)
      else .error (.panicked ("slice index out of bounds of segment.data"))
    else .ok (out ++ seg.data, true)

/-- One iteration of the segment loop (macho_signing.rs lines 187-265):
`__PAGEZERO` is skipped, otherwise the cursor is adjusted and the segment
data written. -/
def writeOneSegment (m : MachOBinary) (sigOff padLen : Nat) (sigData : List Nat)
    (out : List Nat) (wroteNonEmpty : Bool) (seg : Segment) :
    Except RunError (List Nat × Bool) :=
  if seg.segname = SEG_PAGEZERO then .ok (out, wroteNonEmpty)
  else
    match segmentPad m out wroteNonEmpty seg with
    | .error e => .error e
    | .ok out => writeSegmentData m sigOff padLen sigData out wroteNonEmpty seg

/-- The segment loop (macho_signing.rs lines 184-265). -/
def writeSegments (m : MachOBinary) (sigOff padLen : Nat) (sigData : List Nat) :
    List Segment → List Nat → Bool → Except RunError (List Nat)
  | [], out, _ => .ok out
  | seg :: rest, out, wroteNonEmpty =>
    match writeOneSegment m sigOff padLen sigData out wroteNonEmpty seg with
    | .error e => .error e
    | .ok (out, wroteNonEmpty) => writeSegments m sigOff padLen sigData rest out wroteNonEmpty

/-- `create_macho_with_signature` (macho_signing.rs lines 40-268): derive a
new Mach-O buffer embedding the given signature data. -/
def create_macho_with_signature (m : MachOBinary) (signature_data : List Nat) :
    Except RunError (List Nat) :=
  match m.signing_capability_error with
  | some e => .error (.err e)
  | none =>
    match m.linkedit_data_before_signature with
    | none => .error (.err .MissingLinkedit)
    | some _ =>
      if m.newLinkeditSegmentVmsize signature_data.length
          < m.newLinkeditSegmentSize signature_data.length then
        .error (.panicked ("assertion failed: vmsize >= size"))
      else if m.newLinkeditSegmentVmsize signature_data.length % 16384 ≠ 0 then
        .error (.panicked ("assertion failed: vmsize % 16384 == 0"))
      else
        writeSegments m m.signatureFileOffset
          (signaturePaddingLength m.code_limit_binary_offset) signature_data
          m.segments
          (emitHeaderAndCommands m m.signatureFileOffset signature_data.length
            (m.newLinkeditSegmentSize signature_data.length)
            (m.newLinkeditSegmentVmsize signature_data.length))
          false

/-! ## Signing settings and external collaborators -/

/-- An opaque plist value (`plist::Value`), carried but not inspected by the
signing module. -/
structure PlistValue where
  raw : List Nat
  deriving DecidableEq, Repr

/-- `DesignatedRequirementMode`. -/
inductive DesignatedRequirementMode where
  | auto
  | explicitMode (exprs : List (List Nat))
  deriving DecidableEq, Repr

/-- An opaque parsed code-requirement expression. -/
abbrev CodeRequirementExpr : Type := List Nat

/-- The `SigningSettings` fields consumed by the signing module.  Scoped
getters (`SettingsScope::Main`) are modelled as plain fields; the fallible
getter `entitlements_xml` keeps its `Result` shape. -/
structure SigningSettings where
  binary_identifier : Option String
  team_id : Option String
  signing_key : Option Nat
  certificate_chain : List (List Nat)
  time_stamp_url : Option String
  signing_time : Option Nat
  code_signature_flags : Option Nat
  runtime_version : Option (Nat × Nat × Nat)
  digest_type : DigestType
  extra_digests : Option (List DigestType)
  info_plist_data : Option (List Nat)
  code_resources_data : Option (List Nat)
  entitlements_xml : Except AppleCodesignError (Option String)
  entitlements_plist : Option PlistValue
  launch_constraints_self : Option (List Nat)
  launch_constraints_parent : Option (List Nat)
  launch_constraints_responsible : Option (List Nat)
  library_constraints : Option (List Nat)
  designated_requirement : DesignatedRequirementMode
  signing_certificate_apple_signed : Bool

/-- Code-signing slots used by the module. -/
inductive CodeSigningSlot where
  | CodeDirectory
  | Info
  | RequirementSet
  | ResourceDir
  | Entitlements
  | EntitlementsDer
  | LaunchConstraintsSelf
  | LaunchConstraintsParent
  | LaunchConstraintsResponsibleProcess
  | LibraryConstraints
  | Signature
  deriving DecidableEq, Repr

/-- The special blobs assembled by `create_special_blobs`, each carrying the
data its Rust constructor received. -/
inductive BlobData where
  | requirementSet (exprs : List CodeRequirementExpr)
  | entitlements (xml : String)
  | entitlementsDer (der : List Nat)
  | constraintsDer (der : List Nat)
  deriving DecidableEq, Repr

/-- The `CodeDirectoryBlob` fields populated by `create_code_directory`. -/
structure CodeDirectoryBlob where
  version : Nat
  flags : Nat
  code_limit : Nat
  digest_size : Nat
  digest_type : DigestType
  platform : Nat
  page_size : Nat
  code_limit_64 : Option Nat
  exec_seg_base : Option Nat
  exec_seg_limit : Option Nat
  exec_seg_flags : Option Nat
  runtime : Option Nat
  ident : String
  team_name : Option String
  code_digests : List (List Nat)
  special_digests : List (CodeSigningSlot × List Nat)
  deriving DecidableEq, Repr

/-- The collaborators of the signing module that live outside
`macho_signing.rs` (policy derivation, requirement parsing, blob
serialization, digesting, DER encoding, the embedded-signature builder, the
Mach-O parser and version encoding), modelled as injected functions. -/
structure Externals where
  derive_designated_requirements :
    Nat → List (List Nat) → Option String → Except AppleCodesignError CodeRequirementExpr
  requirement_expr_from_bytes : List Nat → Except AppleCodesignError CodeRequirementExpr
  to_blob_bytes : BlobData → Except AppleCodesignError (List Nat)
  entitlements_der_from_plist : PlistValue → Except AppleCodesignError (List Nat)
  constraints_der_from_encoded : List Nat → Except AppleCodesignError (List Nat)
  digest_data : DigestType → List Nat → Except AppleCodesignError (List Nat)
  plist_to_executable_segment_flags : PlistValue → Nat
  semver_to_macho_target_version : Nat × Nat × Nat → Nat
  create_cms_signature :
    Nat → Option String → List (List Nat) → Option Nat → Except AppleCodesignError (List Nat)
  create_empty_cms_signature : Unit → Except AppleCodesignError (List Nat)
  create_superblob_bytes :
    List (CodeSigningSlot × BlobData) → CodeDirectoryBlob → List CodeDirectoryBlob →
    List Nat → Except AppleCodesignError (List Nat)
  parse_macho : List Nat → Except AppleCodesignError MachOBinary

/-! ## Code Directory construction (`create_code_directory`) -/

/-- The Code Directory flags computation (macho_signing.rs lines 470-493):
start from the settings flags, force `ADHOC` for ad-hoc signing, clear it
otherwise, and always clear `LINKER_SIGNED`. -/
def computeCdFlags (settings : SigningSettings) : Nat :=
  let flags : Nat := 0
  let flags := match settings.code_signature_flags with
    | some additional => flags ||| additional
    | none => flags
  let flags :=
    if settings.signing_key.isNone then flags ||| ADHOC
    else if flagsContains flags ADHOC then flagsDiff flags ADHOC
    else flags
  if flagsContains flags LINKER_SIGNED then flagsDiff flags LINKER_SIGNED
  else flags

/-- Modelled from the spec: version adjustment picks the minimum version
that admits every populated field (`CodeDirectoryBlob::adjust_version` lives
in `code_directory.rs`, outside the signing module). -/
def adjustVersion (cd : CodeDirectoryBlob) : Nat :=
  Nat.max 0x20100
    (Nat.max (if cd.team_name.isSome then 0x20200 else 0)
      (Nat.max (if cd.code_limit_64.isSome then 0x20300 else 0)
        (Nat.max
          (if cd.exec_seg_base.isSome || cd.exec_seg_limit.isSome
              || cd.exec_seg_flags.isSome then 0x20400 else 0)
          (if cd.runtime.isSome then 0x20500 else 0))))

/-- Modelled from the spec: fields newer than the chosen version are zeroed
out (`CodeDirectoryBlob::clear_newer_fields` lives in `code_directory.rs`,
outside the signing module). -/
def clearNewerFields (cd : CodeDirectoryBlob) : CodeDirectoryBlob :=
  { cd with
    team_name := if cd.version < 0x20200 then none else cd.team_name
    code_limit_64 := if cd.version < 0x20300 then none else cd.code_limit_64
    exec_seg_base := if cd.version < 0x20400 then none else cd.exec_seg_base
    exec_seg_limit := if cd.version < 0x20400 then none else cd.exec_seg_limit
    exec_seg_flags := if cd.version < 0x20400 then none else cd.exec_seg_flags
    runtime := if cd.version < 0x20500 then none else cd.runtime }

/-- `cd.adjust_version(..)` followed by `cd.clear_newer_fields()`
(macho_signing.rs lines 637-638). -/
def adjustAndClear (cd : CodeDirectoryBlob) : CodeDirectoryBlob :=
  clearNewerFields { cd with version := adjustVersion cd }

/-- The special-slot digests of the Info plist and the code resources
(macho_signing.rs lines 574-597). -/
def computeSpecialHashes (ext : Externals) (settings : SigningSettings)
    (digest_type : DigestType) :
    Except AppleCodesignError (List (CodeSigningSlot × List Nat)) :=
  match settings.info_plist_data with
  | some data =>
    (match ext.digest_data digest_type data with
     | .error e => .error e
     | .ok h1 =>
       match settings.code_resources_data with
       | some data2 =>
         (match ext.digest_data digest_type data2 with
          | .error e => .error e
          | .ok h2 => .ok [(CodeSigningSlot.Info, h1), (CodeSigningSlot.ResourceDir, h2)])
       | none => .ok [(CodeSigningSlot.Info, h1)])
  | none =>
    match settings.code_resources_data with
    | some data2 =>
      (match ext.digest_data digest_type data2 with
       | .error e => .error e
       | .ok h2 => .ok [(CodeSigningSlot.ResourceDir, h2)])
    | none => .ok []

/-- The hardened-runtime version field (macho_signing.rs lines 539-564):
the settings override when present, else the targeting SDK version when the
`RUNTIME` flag demands one. -/
def computeRuntime (ext : Externals) (settings : SigningSettings)
    (target : Option Targeting) (flags : Nat) : Option Nat :=
  let runtime := match settings.runtime_version with
    | some version => some (ext.semver_to_macho_target_version version)
    | none => none
  if runtime.isNone && flagsContains flags RUNTIME then
    match target with
    | some t => some (ext.semver_to_macho_target_version t.sdk_version)
    | none => none
  else runtime

/-- `create_code_directory` (macho_signing.rs lines 453-641). -/
def create_code_directory (ext : Externals) (settings : SigningSettings)
    (macho : MachOBinary) : Except AppleCodesignError CodeDirectoryBlob :=
  let target := macho.find_targeting
  let flags := computeCdFlags settings
  let cl := macho.code_limit_binary_offset
  let code_limit_pair : Nat × Option Nat :=
    if cl > U32_MAX then (0, some cl) else (cl, none)
  let platform := 0
  let page_size := 4096
  let exec_seg := macho.executable_segment_boundary
  let exec_seg_flags :=
    if macho.is_executable then
      match settings.entitlements_plist with
      | some entitlements =>
          some (ext.plist_to_executable_segment_flags entitlements ||| MAIN_BINARY)
      | none => some MAIN_BINARY
    else none
  let runtime := computeRuntime ext settings target flags
  let digest_type := settings.digest_type
  let code_hashes := macho.code_digests digest_type page_size
  match computeSpecialHashes ext settings digest_type with
  | .error e => .error e
  | .ok special_hashes =>
    match settings.binary_identifier with
    | none => .error .NoIdentifier
    | some ident =>
      let team_name := settings.team_id
      .ok (adjustAndClear
        { version := 0
          flags
          code_limit := code_limit_pair.1
          digest_size := digest_len digest_type
          digest_type
          platform
          page_size
          code_limit_64 := code_limit_pair.2
          exec_seg_base := some exec_seg.1
          exec_seg_limit := some exec_seg.2
          exec_seg_flags
          runtime
          ident
          team_name
          code_digests := code_hashes
          special_digests := special_hashes })

/-! ## Special blobs (`create_special_blobs`) -/

/-- The designated-requirements expressions (macho_signing.rs lines
657-686): derived from the signing certificate in `Auto` mode, parsed from
the provided byte strings in `Explicit` mode. -/
def requirementsStep (ext : Externals) (settings : SigningSettings) :
    Except AppleCodesignError (List CodeRequirementExpr) :=
  match settings.designated_requirement with
  | .auto =>
    (match settings.signing_key with
     | some cert =>
       (match settings.binary_identifier with
        | none => .error .NoIdentifier
        | some i =>
          match ext.derive_designated_requirements cert settings.certificate_chain (some i) with
          | .error e => .error e
          | .ok expr => .ok [expr])
     | none => .ok [])
  | .explicitMode exprs => parseRequirementExprs ext exprs
where
  /-- Parse each provided requirement expression. -/
  parseRequirementExprs (ext : Externals) :
      List (List Nat) → Except AppleCodesignError (List CodeRequirementExpr)
    | [] => .ok []
    | e :: rest =>
      match ext.requirement_expr_from_bytes e with
      | .error err => .error err
      | .ok expr =>
        match parseRequirementExprs ext rest with
        | .error err => .error err
        | .ok exprs => .ok (expr :: exprs)

/-- The DER-encoded entitlements blob, emitted only for executables
(macho_signing.rs lines 709-715). -/
def entitlementsDerStep (ext : Externals) (settings : SigningSettings)
    (is_executable : Bool) :
    Except AppleCodesignError (List (CodeSigningSlot × BlobData)) :=
  if is_executable then
    match settings.entitlements_plist with
    | some value =>
      (match ext.entitlements_der_from_plist value with
       | .error e => .error e
       | .ok der => .ok [(CodeSigningSlot.EntitlementsDer, BlobData.entitlementsDer der)])
    | none => .ok []
  else .ok []

/-- A launch/library constraints blob from caller-provided encoded bytes
(macho_signing.rs lines 717-738). -/
def constraintsStep (ext : Externals) (constraints : Option (List Nat))
    (slot : CodeSigningSlot) :
    Except AppleCodesignError (List (CodeSigningSlot × BlobData)) :=
  match constraints with
  | some c =>
    (match ext.constraints_der_from_encoded c with
     | .error e => .error e
     | .ok der => .ok [(slot, BlobData.constraintsDer der)])
  | none => .ok []

/-- `create_special_blobs` (macho_signing.rs lines 650-741): the
requirement set (always), the XML entitlements, the DER entitlements (for
executables), and the four constraints blobs. -/
def create_special_blobs (ext : Externals) (settings : SigningSettings)
    (is_executable : Bool) :
    Except AppleCodesignError (List (CodeSigningSlot × BlobData)) :=
  match requirementsStep ext settings with
  | .error e => .error e
  | .ok requirements =>
  match settings.entitlements_xml with
  | .error e => .error e
  | .ok oxml =>
  match entitlementsDerStep ext settings is_executable with
  | .error e => .error e
  | .ok derPart =>
  match constraintsStep ext settings.launch_constraints_self
      CodeSigningSlot.LaunchConstraintsSelf with
  | .error e => .error e
  | .ok lcSelf =>
  match constraintsStep ext settings.launch_constraints_parent
      CodeSigningSlot.LaunchConstraintsParent with
  | .error e => .error e
  | .ok lcParent =>
  match constraintsStep ext settings.launch_constraints_responsible
      CodeSigningSlot.LaunchConstraintsResponsibleProcess with
  | .error e => .error e
  | .ok lcResp =>
  match constraintsStep ext settings.library_constraints
      CodeSigningSlot.LibraryConstraints with
  | .error e => .error e
  | .ok lib =>
    .ok ([(CodeSigningSlot.RequirementSet, BlobData.requirementSet requirements)]
      ++ (match oxml with
          | some xml => [(CodeSigningSlot.Entitlements, BlobData.entitlements xml)]
          | none => [])
      ++ derPart ++ lcSelf ++ lcParent ++ lcResp ++ lib)

/-! ## SuperBlob assembly (`create_superblob`) -/

/-- The alternative Code Directories, one per extra digest (macho_signing.rs
lines 414-429): each is built from a settings clone with the digest type
replaced. -/
def altCodeDirectories (ext : Externals) (settings : SigningSettings)
    (macho : MachOBinary) : Except AppleCodesignError (List CodeDirectoryBlob) :=
  match settings.extra_digests with
  | some digests => altLoop digests
  | none => .ok []
where
  altLoop : List DigestType → Except AppleCodesignError (List CodeDirectoryBlob)
    | [] => .ok []
    | d :: rest =>
      match create_code_directory ext { settings with digest_type := d } macho with
      | .error e => .error e
      | .ok cd =>
        match altLoop rest with
        | .error e => .error e
        | .ok cds => .ok (cd :: cds)

/-- `create_superblob` (macho_signing.rs lines 398-446): special blobs, the
Code Directory, the alternative Code Directories, the CMS signature (real or
empty), then the finalized SuperBlob bytes.  The builder bookkeeping is the
injected `create_superblob_bytes`. -/
def create_superblob (ext : Externals) (settings : SigningSettings)
    (macho : MachOBinary) : Except AppleCodesignError (List Nat) :=
  match create_special_blobs ext settings macho.is_executable with
  | .error e => .error e
  | .ok blobs =>
  match create_code_directory ext settings macho with
  | .error e => .error e
  | .ok code_directory =>
  match altCodeDirectories ext settings macho with
  | .error e => .error e
  | .ok alts =>
  match (match settings.signing_key with
         | some key => ext.create_cms_signature key settings.time_stamp_url
             settings.certificate_chain settings.signing_time
         | none => ext.create_empty_cms_signature ()) with
  | .error e => .error e
  | .ok cms => ext.create_superblob_bytes blobs code_directory alts cms

/-! ## Size estimation (`estimate_embedded_signature_size`) -/

/-- Sum of the serialized lengths of the special blobs (macho_signing.rs
lines 766-769). -/
def blobBytesLengths (ext : Externals) :
    List (CodeSigningSlot × BlobData) → Except AppleCodesignError Nat
  | [] => .ok 0
  | sb :: rest =>
    match ext.to_blob_bytes sb.2 with
    | .error e => .error e
    | .ok bytes =>
      match blobBytesLengths ext rest with
      | .error e => .error e
      | .ok n => .ok (bytes.length + n)

/-- `estimate_embedded_signature_size` (macho_signing.rs lines 744-795). -/
def estimate_embedded_signature_size (ext : Externals) (macho : MachOBinary)
    (settings : SigningSettings) : Except AppleCodesignError Nat :=
  let code_directory_count := 1 + (match settings.extra_digests with
    | some digests => digests.length
    | none => 0)
  let size := 1024 * code_directory_count
  let size := size + macho.code_digests_size settings.digest_type 4096
  let size := size + (match settings.extra_digests with
    | some digests => (digests.map fun d => macho.code_digests_size d 4096).sum
    | none => 0)
  match create_special_blobs ext settings true with
  | .error e => .error e
  | .ok blobs =>
    match blobBytesLengths ext blobs with
    | .error e => .error e
    | .ok blobsLen =>
      let size := size + blobsLen
      let size := size + 4096
      let size := size + (settings.certificate_chain.map List.length).sum
      let size := if settings.time_stamp_url.isSome then size + 8192 else size
      .ok (size + (1024 - size % 1024))

/-- The size formula exactly as the specification states it, for comparison
with the implementation: `1024 * (1 + extras)` plus the code-digest sizes,
the blob lengths, fixed CMS overhead, chain certificate lengths, the
timestamp-token allowance, rounded up past the next 1 KiB boundary. -/
def estimateSpecFormula (extraCount primaryDigestsSize : Nat)
    (extraDigestsSizes : List Nat) (blobsLen certsLen : Nat) (hasTsa : Bool) : Nat :=
  let size := 1024 * (1 + extraCount) + primaryDigestsSize + extraDigestsSizes.sum
    + blobsLen + 4096 + certsLen + (if hasTsa then 8192 else 0)
  size + (1024 - size % 1024)

/-! ## Per-slice orchestration (`write_signed_binary`) -/

/-- The observable stages of signing one slice, for stating when the
rewriter runs relative to a failure. -/
inductive SignEvent where
  | estimateSize
  | rewrite
  | parseIntermediate
  | buildSuperblob
  deriving DecidableEq, Repr

/-- The body of the per-slice loop of `write_signed_binary`
(macho_signing.rs lines 340-378): estimate the reservation, rewrite with a
zero placeholder, re-parse, build the SuperBlob, compare its length against
the reservation (fail / use as-is / zero-pad), and rewrite a second time.
The first component records which stages ran. -/
def sign_macho_slice (ext : Externals) (settings : SigningSettings)
    (original_macho : MachOBinary) : List SignEvent × Except RunError (List Nat) :=
  match estimate_embedded_signature_size ext original_macho settings with
  | .error e => ([.estimateSize], .error (.err e))
  | .ok signature_len =>
    let placeholder_signature_data := List.replicate signature_len 0
    match create_macho_with_signature original_macho placeholder_signature_data with
    | .error e => ([.estimateSize, .rewrite], .error e)
    | .ok intermediate_macho_data =>
      match ext.parse_macho intermediate_macho_data with
      | .error e => ([.estimateSize, .rewrite, .parseIntermediate], .error (.err e))
      | .ok intermediate_macho =>
        match create_superblob ext settings intermediate_macho with
        | .error e =>
          ([.estimateSize, .rewrite, .parseIntermediate, .buildSuperblob], .error (.err e))
        | .ok signature_data =>
          let events := [SignEvent.estimateSize, .rewrite, .parseIntermediate, .buildSuperblob]
          match compare signature_data.length placeholder_signature_data.length with
          | .gt => (events, .error (.err .SignatureDataTooLarge))
          | .eq => (events ++ [.rewrite],
              create_macho_with_signature intermediate_macho signature_data)
          | .lt => (events ++ [.rewrite],
              create_macho_with_signature intermediate_macho
                (signature_data ++
                  List.replicate (placeholder_signature_data.length - signature_data.length) 0))

/-! ## Concrete instances used by witnesses and counterexamples -/

/-- Little-endian 32-bit context. -/
def exCtx : Ctx := { le := Endian.little, is64 := false }

/-- A `__LINKEDIT` segment command for the example binary. -/
def exLinkeditCmd : SegmentCommand :=
  { cmd := 1, cmdsize := 56, segname := SEG_LINKEDIT, vmaddr := 0, vmsize := 16384,
    fileoff := 112, filesize := 20, maxprot := 7, initprot := 3, nsects := 0, flags := 0 }

/-- The `__LINKEDIT` segment of the example binary. -/
def exLinkeditSeg : Segment :=
  { segname := SEG_LINKEDIT, fileoff := 112, filesize := 20, data := List.replicate 20 0 }

/-- A small well-formed executable image on which the rewriter succeeds:
100 bytes of header and load commands, a 12-byte gap, then `__LINKEDIT`
with 4 retained bytes before the signature (code limit 116, so the
signature lands at offset 128). -/
def exM1 : MachOBinary :=
  { data := List.replicate 112 0
    ctx := exCtx
    header := { magic := 0xfeedface, cputype := 7, cpusubtype := 3, filetype := MH_EXECUTE,
                ncmds := 1, sizeofcmds := 56, flags := 0, reserved := 0 }
    load_commands := [LoadCommand.segment32 exLinkeditCmd []]
    segments := [exLinkeditSeg]
    linkedit_data_before_signature := some [1, 2, 3, 4]
    code_limit_binary_offset := 116
    signing_capability_error := none
    executable_segment_boundary := (0, 4096)
    find_targeting := none
    code_digests := fun _ _ => [] }

/-- A non-executable (`MH_DYLIB`) variant of the example image. -/
def exM2 : MachOBinary :=
  { exM1 with header := { exM1.header with filetype := 6 } }

/-- Ad-hoc signing settings with an identifier. -/
def sAd : SigningSettings :=
  { binary_identifier := some ("hello")
    team_id := none
    signing_key := none
    certificate_chain := []
    time_stamp_url := none
    signing_time := none
    code_signature_flags := none
    runtime_version := none
    digest_type := DigestType.sha256
    extra_digests := none
    info_plist_data := none
    code_resources_data := none
    entitlements_xml := .ok none
    entitlements_plist := none
    launch_constraints_self := none
    launch_constraints_parent := none
    launch_constraints_responsible := none
    library_constraints := none
    designated_requirement := DesignatedRequirementMode.auto
    signing_certificate_apple_signed := false }

/-- Ad-hoc settings with no binary identifier. -/
def sNoId : SigningSettings := { sAd with binary_identifier := none }

/-- Settings with a signing identity, `Auto` requirements and no binary
identifier. -/
def sKeyNoId : SigningSettings := { sNoId with signing_key := some 1 }

/-- Trivial external collaborators: every oracle succeeds with fixed small
outputs and parsing returns the example image. -/
def extTriv : Externals :=
  { derive_designated_requirements := fun _ _ _ => .ok []
    requirement_expr_from_bytes := fun _ => .ok []
    to_blob_bytes := fun _ => .ok []
    entitlements_der_from_plist := fun _ => .ok []
    constraints_der_from_encoded := fun _ => .ok []
    digest_data := fun _ _ => .ok []
    plist_to_executable_segment_flags := fun _ => 4
    semver_to_macho_target_version := fun _ => 0
    create_cms_signature := fun _ _ _ _ => .ok []
    create_empty_cms_signature := fun _ => .ok []
    create_superblob_bytes := fun _ _ _ _ => .ok []
    parse_macho := fun _ => .ok exM1 }

/-- Collaborators whose SuperBlob is exactly as long as the example
reservation (6144 bytes). -/
def extEq : Externals :=
  { extTriv with create_superblob_bytes := fun _ _ _ _ => .ok (List.replicate 6144 0) }

/-- Collaborators whose SuperBlob overflows the example reservation by one
byte. -/
def extBig : Externals :=
  { extTriv with create_superblob_bytes := fun _ _ _ _ => .ok (List.replicate 6145 0) }

/-- Collaborators whose SuperBlob is 100 bytes, shorter than the example
reservation. -/
def extSmall : Externals :=
  { extTriv with create_superblob_bytes := fun _ _ _ _ => .ok (List.replicate 100 0) }


/-! ## Helper lemmas about the rewriter -/

theorem signaturePaddingLength_lt (n : Nat) : signaturePaddingLength n < 16 := by
  simp only [signaturePaddingLength]
  have := Nat.mod_lt n (show 0 < 16 by omega)
  split <;> omega

theorem signatureFileOffset_mod16 (m : MachOBinary) : m.signatureFileOffset % 16 = 0 := by
  simp only [MachOBinary.signatureFileOffset, signaturePaddingLength]
  have h16 : m.code_limit_binary_offset % 16 < 16 := Nat.mod_lt _ (by omega)
  split <;> omega

theorem roundUp16k_mod (s : Nat) : roundUp16k s % 16384 = 0 := by
  simp only [roundUp16k]
  have := Nat.mod_lt s (show 0 < 16384 by omega)
  split <;> omega

theorem le_roundUp16k (s : Nat) : s ≤ roundUp16k s := by
  simp only [roundUp16k]
  have := Nat.mod_lt s (show 0 < 16384 by omega)
  split <;> omega

/-- Successful cursor adjustment only extends the output buffer. -/
theorem segmentPad_append (m : MachOBinary) (out : List Nat) (flag : Bool)
    (seg : Segment) (out2 : List Nat)
    (h : segmentPad m out flag seg = .ok out2) : ∃ t, out2 = out ++ t := by
  unfold segmentPad at h
  split at h
  · split at h
    · exact ⟨_, (Except.ok.injEq _ _).mp h |>.symm⟩
    · cases h
  · split at h
    · split at h
      · exact ⟨[], by cases h; simp⟩
      · split at h
        · exact ⟨[], by cases h; simp⟩
        · cases h
    · exact ⟨[], by cases h; simp⟩

/-- Successful segment-data writing only extends the output buffer. -/
theorem writeSegmentData_append (m : MachOBinary) (sigOff padLen : Nat)
    (sigData out : List Nat) (flag : Bool) (seg : Segment) (out2 : List Nat) (flag2 : Bool)
    (h : writeSegmentData m sigOff padLen sigData out flag seg = .ok (out2, flag2)) :
    ∃ t, out2 = out ++ t := by
  unfold writeSegmentData at h
  split at h
  · split at h
    · cases h
    · split at h
      · cases h
      · split at h
        · cases h
        · cases h
          simp only [List.append_assoc]
          exact ⟨_, rfl⟩
  · split at h
    · split at h
      · refine ⟨[], ?_⟩
        cases h
        simp
      · split at h
        · refine ⟨listSlice seg.data out.length seg.filesize, ?_⟩
          cases h
          rfl
        · cases h
    · refine ⟨seg.data, ?_⟩
      cases h
      rfl

/-- A successful loop iteration only extends the output buffer. -/
theorem writeOneSegment_append (m : MachOBinary) (sigOff padLen : Nat)
    (sigData out : List Nat) (flag : Bool) (seg : Segment) (out2 : List Nat) (flag2 : Bool)
    (h : writeOneSegment m sigOff padLen sigData out flag seg = .ok (out2, flag2)) :
    ∃ t, out2 = out ++ t := by
  unfold writeOneSegment at h
  split at h
  · exact ⟨[], by cases h; simp⟩
  · cases hpad : segmentPad m out flag seg with
    | error e => rw [hpad] at h; cases h
    | ok mid =>
      rw [hpad] at h
      obtain ⟨t1, ht1⟩ := segmentPad_append m out flag seg mid hpad
      obtain ⟨t2, ht2⟩ := writeSegmentData_append m sigOff padLen sigData mid flag seg out2 flag2 h
      exact ⟨t1 ++ t2, by rw [ht2, ht1, List.append_assoc]⟩

/-- A successful run of the segment loop only extends the output buffer. -/
theorem writeSegments_append (m : MachOBinary) (sigOff padLen : Nat) (sigData : List Nat) :
    ∀ (segs : List Segment) (out : List Nat) (flag : Bool) (res : List Nat),
    writeSegments m sigOff padLen sigData segs out flag = .ok res → ∃ t, res = out ++ t := by
  intro segs
  induction segs with
  | nil =>
    intro out flag res h
    exact ⟨[], by cases h; simp⟩
  | cons seg rest ih =>
    intro out flag res h
    unfold writeSegments at h
    cases hone : writeOneSegment m sigOff padLen sigData out flag seg with
    | error e => rw [hone] at h; cases h
    | ok p =>
      rw [hone] at h
      obtain ⟨t1, ht1⟩ := writeOneSegment_append m sigOff padLen sigData out flag seg p.1 p.2 hone
      obtain ⟨t2, ht2⟩ := ih p.1 p.2 res h
      exact ⟨t1 ++ t2, by rw [ht2, ht1, List.append_assoc]⟩

/-- In any successful run of the segment loop that processes a `__LINKEDIT`
segment, the signature bytes sit exactly at the signature file offset. -/
theorem writeSegments_signature_slice (m : MachOBinary) (sigOff padLen : Nat)
    (sigData : List Nat) :
    ∀ (segs : List Segment) (out : List Nat) (flag : Bool) (res : List Nat),
    writeSegments m sigOff padLen sigData segs out flag = .ok res →
    (∃ seg, seg ∈ segs ∧ seg.segname = SEG_LINKEDIT) →
    listSlice res sigOff (sigOff + sigData.length) = sigData := by
  intro segs
  induction segs with
  | nil =>
    intro out flag res _ hmem
    obtain ⟨seg, hm, _⟩ := hmem
    cases hm
  | cons seg rest ih =>
    intro out flag res h hmem
    unfold writeSegments at h
    cases hone : writeOneSegment m sigOff padLen sigData out flag seg with
    | error e => rw [hone] at h; cases h
    | ok p =>
      rw [hone] at h
      by_cases hname : seg.segname = SEG_LINKEDIT
      · -- the head is __LINKEDIT: the write places sigData at sigOff
        unfold writeOneSegment at hone
        split at hone
        · rename_i hpz
          rw [hname] at hpz
          exact absurd hpz (by decide)
        · cases hpad : segmentPad m out flag seg with
          | error e => rw [hpad] at hone; cases hone
          | ok mid =>
            rw [hpad] at hone
            dsimp only at hone
            unfold writeSegmentData at hone
            split at hone
            · cases hld : m.linkedit_data_before_signature with
              | none => rw [hld] at hone; cases hone
              | some dataBefore =>
                rw [hld] at hone
                dsimp only at hone
                simp only [ne_eq] at hone
                by_cases hlen : (mid ++ dataBefore ++ List.replicate padLen 0).length = sigOff
                · rw [if_neg (not_not_intro hlen)] at hone
                  by_cases h16 : (mid ++ dataBefore ++ List.replicate padLen 0).length % 16 = 0
                  · rw [if_neg (not_not_intro h16)] at hone
                    cases hone
                    obtain ⟨t, ht⟩ := writeSegments_append m sigOff padLen sigData rest _ _ res h
                    rw [ht]
                    unfold listSlice
                    rw [List.append_assoc (mid ++ dataBefore ++ List.replicate padLen 0)
                      sigData t]
                    rw [← hlen, List.take_append, List.drop_left]
                    rw [List.take_left' rfl]
                  · rw [if_pos h16] at hone
                    cases hone
                · rw [if_pos hlen] at hone
                  cases hone
            · rename_i hnn
              exact absurd hname hnn
      · -- the head is not __LINKEDIT: recurse
        obtain ⟨s2, hm, hs2⟩ := hmem
        cases hm with
        | head => exact absurd hs2 hname
        | tail _ hm2 => exact ih p.1 p.2 res h ⟨s2, hm2, hs2⟩

/-- A successful rewrite is a successful run of the segment loop over the
emitted header and load commands. -/
theorem create_macho_ok_writeSegments (m : MachOBinary) (sig res : List Nat)
    (h : create_macho_with_signature m sig = .ok res) :
    writeSegments m m.signatureFileOffset
      (signaturePaddingLength m.code_limit_binary_offset) sig m.segments
      (emitHeaderAndCommands m m.signatureFileOffset sig.length
        (m.newLinkeditSegmentSize sig.length) (m.newLinkeditSegmentVmsize sig.length))
      false = .ok res := by
  unfold create_macho_with_signature at h
  split at h
  · cases h
  · split at h
    · cases h
    · split at h
      · cases h
      · split at h
        · cases h
        · exact h

/-! ## C1 -/

/-- C1: for every Mach-O slice produced by the rewriter, the signature bytes
are written at the code-limit offset padded upward by a padding length in
[0, 16) so that the signature start is a multiple of 16; the rewritten
`__LINKEDIT` filesize is retained-data length + padding length + signature
length, and the rewritten `__LINKEDIT` vmsize is that filesize rounded up to
a 16384-byte boundary, hence `vmsize % 16384 == 0` and
`vmsize >= filesize`. -/
theorem c1_rewriter_alignment_and_linkedit_sizes (m : MachOBinary)
    (sig res : List Nat) (h : create_macho_with_signature m sig = .ok res)
    (hseg : ∃ seg, seg ∈ m.segments ∧ seg.segname = SEG_LINKEDIT) :
    signaturePaddingLength m.code_limit_binary_offset < 16 ∧
    m.signatureFileOffset
      = m.code_limit_binary_offset + signaturePaddingLength m.code_limit_binary_offset ∧
    m.signatureFileOffset % 16 = 0 ∧
    (∀ dataBefore, m.linkedit_data_before_signature = some dataBefore →
      m.newLinkeditSegmentSize sig.length
        = dataBefore.length + signaturePaddingLength m.code_limit_binary_offset
          + sig.length) ∧
    m.newLinkeditSegmentVmsize sig.length
      = roundUp16k (m.newLinkeditSegmentSize sig.length) ∧
    m.newLinkeditSegmentVmsize sig.length % 16384 = 0 ∧
    m.newLinkeditSegmentSize sig.length ≤ m.newLinkeditSegmentVmsize sig.length ∧
    listSlice res m.signatureFileOffset (m.signatureFileOffset + sig.length) = sig := by
  refine ⟨signaturePaddingLength_lt _, rfl, signatureFileOffset_mod16 m, ?_, rfl,
    roundUp16k_mod _, le_roundUp16k _, ?_⟩
  · intro dataBefore hld
    unfold MachOBinary.newLinkeditSegmentSize
    rw [hld]
  · exact writeSegments_signature_slice m m.signatureFileOffset
      (signaturePaddingLength m.code_limit_binary_offset) sig m.segments _ false res
      (create_macho_ok_writeSegments m sig res h) hseg

set_option maxRecDepth 100000 in
/-- Witness for C1 at a concrete image and signature. -/
theorem c1_rewriter_alignment_and_linkedit_sizes_witness :
    signaturePaddingLength exM1.code_limit_binary_offset < 16 ∧
    exM1.signatureFileOffset
      = exM1.code_limit_binary_offset + signaturePaddingLength exM1.code_limit_binary_offset ∧
    exM1.signatureFileOffset % 16 = 0 ∧
    (∀ dataBefore, exM1.linkedit_data_before_signature = some dataBefore →
      exM1.newLinkeditSegmentSize (List.length [9, 9])
        = dataBefore.length + signaturePaddingLength exM1.code_limit_binary_offset
          + List.length [9, 9]) ∧
    exM1.newLinkeditSegmentVmsize (List.length [9, 9])
      = roundUp16k (exM1.newLinkeditSegmentSize (List.length [9, 9])) ∧
    exM1.newLinkeditSegmentVmsize (List.length [9, 9]) % 16384 = 0 ∧
    exM1.newLinkeditSegmentSize (List.length [9, 9])
      ≤ exM1.newLinkeditSegmentVmsize (List.length [9, 9]) ∧
    listSlice (okD (create_macho_with_signature exM1 [9, 9]) [])
      exM1.signatureFileOffset (exM1.signatureFileOffset + List.length [9, 9]) = [9, 9] :=
  c1_rewriter_alignment_and_linkedit_sizes exM1 [9, 9]
    (okD (create_macho_with_signature exM1 [9, 9]) []) (by decide)
    ⟨exLinkeditSeg, by decide, by decide⟩

/-! ## C8 -/

/-- C8: while segments are emitted in file-offset order, a segment whose
declared fileoff the cursor has already passed causes a `MachOWrite` failure,
except for a segment with `fileoff == 0` and before the first segment has
been emitted (the `wrote_non_empty_segment` flag); when the cursor is before
a segment's fileoff, the gap bytes are copied verbatim from the source
buffer. -/
theorem c8_segment_cursor_corruption (m : MachOBinary) (sigOff padLen : Nat)
    (sigData out : List Nat) (wroteNonEmpty : Bool) (seg : Segment)
    (hname : seg.segname ≠ SEG_PAGEZERO) :
    (wroteNonEmpty = true → seg.fileoff ≠ 0 → seg.fileoff < out.length →
      writeOneSegment m sigOff padLen sigData out wroteNonEmpty seg
        = .error (.err (.MachOWrite (machOWriteDetail out.length seg.fileoff)))) ∧
    (out.length < seg.fileoff → seg.fileoff ≤ m.data.length →
      writeOneSegment m sigOff padLen sigData out wroteNonEmpty seg
        = writeSegmentData m sigOff padLen sigData
            (out ++ listSlice m.data out.length seg.fileoff) wroteNonEmpty seg) := by
  constructor
  · intro hflag hnz hlt
    have hpad : segmentPad m out wroteNonEmpty seg
        = .error (.err (.MachOWrite (machOWriteDetail out.length seg.fileoff))) := by
      unfold segmentPad
      rw [if_neg (by omega : ¬ out.length < seg.fileoff), if_pos hlt, if_neg hnz,
        if_neg (by simp [hflag] : ¬ wroteNonEmpty = false)]
    unfold writeOneSegment
    rw [if_neg hname, hpad]
  · intro hlt hle
    have hpad : segmentPad m out wroteNonEmpty seg
        = .ok (out ++ listSlice m.data out.length seg.fileoff) := by
      unfold segmentPad
      rw [if_pos hlt, if_pos hle]
    unfold writeOneSegment
    rw [if_neg hname, hpad]

/-- A segment overlapping the cursor, used to exercise the corruption
branch. -/
def segA : Segment := { segname := "__DATA", fileoff := 4, filesize := 16, data := [5, 5] }

/-- A segment ahead of the cursor, used to exercise the gap-copy branch. -/
def segB : Segment :=
  { segname := "__DATA", fileoff := 8, filesize := 16, data := [5, 5] }

/-- Witness for C8: a concrete corruption failure and a concrete gap copy. -/
theorem c8_segment_cursor_corruption_witness :
    writeOneSegment exM1 0 0 [] (List.replicate 20 1) true segA
      = .error (.err (.MachOWrite (machOWriteDetail 20 4))) ∧
    writeOneSegment exM1 0 0 [] (List.replicate 5 1) true segB
      = writeSegmentData exM1 0 0 [] (List.replicate 5 1 ++ listSlice exM1.data 5 8)
          true segB :=
  ⟨(c8_segment_cursor_corruption exM1 0 0 [] (List.replicate 20 1) true segA
      (by decide)).1 rfl (by decide) (by decide),
   (c8_segment_cursor_corruption exM1 0 0 [] (List.replicate 5 1) true segB
      (by decide)).2 (by decide) (by decide)⟩

/-! ## C10 -/

/-- An overlapping segment with nonzero fileoff whose slice indexing is
nevertheless in bounds. -/
def segOv : Segment :=
  { segname := "__DATA", fileoff := 4, filesize := 16, data := List.replicate 16 7 }

/-- A segment at file offset 0, satisfying the claimed precondition. -/
def segZero : Segment :=
  { segname := "__DATA", fileoff := 0, filesize := 16, data := List.replicate 16 7 }

/-- Counterexample to C10 as stated: for this overlapping segment with
`fileoff = 4 ≠ 0` and non-empty data the slice indexing is in bounds and no
panic occurs, so `fileoff == 0` is not necessary for the indexing to be in
bounds (and an overlapping segment with `fileoff > 0` need not panic). -/
theorem c10_slice_bounds_counterexample :
    segOv.fileoff ≠ 0 ∧ segOv.fileoff < (List.replicate 5 1).length ∧
    segOv.data ≠ [] ∧ segOv.segname ≠ SEG_LINKEDIT ∧
    isOkE (writeSegmentData exM1 0 0 [] (List.replicate 5 1) false segOv) = true := by
  decide

/-- C10 (amended): for a non-`__LINKEDIT` segment whose fileoff is less than
the cursor and whose data is non-empty, the slice from the absolute cursor
to the segment's filesize is in bounds exactly when
`cursor <= filesize <= data length` — which the claimed precondition
(`fileoff = 0` with `cursor <= filesize <= data length`) guarantees but is
not necessary for — and when the bound fails the operation panics instead of
returning a `MachOWrite` error. -/
theorem c10_slice_bounds_amended (m : MachOBinary) (sigOff padLen : Nat)
    (sigData out : List Nat) (wroteNonEmpty : Bool) (seg : Segment)
    (hname : seg.segname ≠ SEG_LINKEDIT) (hov : seg.fileoff < out.length)
    (hne : seg.data ≠ []) :
    (isOkE (writeSegmentData m sigOff padLen sigData out wroteNonEmpty seg) = true
      ↔ (out.length ≤ seg.filesize ∧ seg.filesize ≤ seg.data.length)) ∧
    (seg.fileoff = 0 → out.length ≤ seg.filesize → seg.filesize ≤ seg.data.length →
      writeSegmentData m sigOff padLen sigData out wroteNonEmpty seg
        = .ok (out ++ listSlice seg.data out.length seg.filesize, true)) ∧
    (¬(out.length ≤ seg.filesize ∧ seg.filesize ≤ seg.data.length) →
      writeSegmentData m sigOff padLen sigData out wroteNonEmpty seg
        = .error (.panicked ("slice index out of bounds of segment.data"))) := by
  have hbody : writeSegmentData m sigOff padLen sigData out wroteNonEmpty seg
      = if out.length ≤ seg.filesize ∧ seg.filesize ≤ seg.data.length then
          .ok (out ++ listSlice seg.data out.length seg.filesize, true)
        else .error (.panicked ("slice index out of bounds of segment.data")) := by
    unfold writeSegmentData
    rw [if_neg hname, if_pos hov, if_neg hne]
  refine ⟨?_, ?_, ?_⟩
  · rw [hbody]
    by_cases hb : out.length ≤ seg.filesize ∧ seg.filesize ≤ seg.data.length
    · rw [if_pos hb]
      simp [isOkE, hb]
    · rw [if_neg hb]
      simp [isOkE, hb]
  · intro _ h1 h2
    rw [hbody, if_pos ⟨h1, h2⟩]
  · intro hb
    rw [hbody, if_neg hb]

/-- Witness for C10: the bounds violation panics on a concrete overlapping
segment, and the claimed precondition yields a successful in-bounds copy on
a concrete segment at file offset 0. -/
theorem c10_slice_bounds_amended_witness :
    ((isOkE (writeSegmentData exM1 0 0 [] (List.replicate 20 1) false segOv) = true
      ↔ ((List.replicate 20 1).length ≤ segOv.filesize ∧
          segOv.filesize ≤ segOv.data.length)) ∧
     (segOv.fileoff = 0 → (List.replicate 20 1).length ≤ segOv.filesize →
        segOv.filesize ≤ segOv.data.length →
        writeSegmentData exM1 0 0 [] (List.replicate 20 1) false segOv
          = .ok (List.replicate 20 1
              ++ listSlice segOv.data (List.replicate 20 1).length segOv.filesize, true)) ∧
     (¬((List.replicate 20 1).length ≤ segOv.filesize ∧
          segOv.filesize ≤ segOv.data.length) →
        writeSegmentData exM1 0 0 [] (List.replicate 20 1) false segOv
          = .error (.panicked ("slice index out of bounds of segment.data")))) ∧
    writeSegmentData exM1 0 0 [] (List.replicate 5 1) false segZero
      = .ok (List.replicate 5 1
          ++ listSlice segZero.data (List.replicate 5 1).length segZero.filesize, true) :=
  ⟨c10_slice_bounds_amended exM1 0 0 [] (List.replicate 20 1) false segOv
      (by decide) (by decide) (by decide),
   (c10_slice_bounds_amended exM1 0 0 [] (List.replicate 5 1) false segZero
      (by decide) (by decide) (by decide)).2.1 rfl (by decide) (by decide)⟩

/-! ## C3 -/

/-- The derived query for an existing signature load command is empty
exactly when the command scan sees none. -/
theorem code_signature_none_iff_not_any (m : MachOBinary) :
    m.code_signature_load_command = none
      ↔ m.load_commands.any LoadCommand.isCodeSignatureLC = false := by
  unfold MachOBinary.code_signature_load_command
  induction m.load_commands with
  | nil => simp
  | cons lc rest ih =>
    cases lc with
    | codeSignature c t => simp [LoadCommand.isCodeSignatureLC]
    | segment32 s t => simpa [LoadCommand.isCodeSignatureLC] using ih
    | segment64 s t => simpa [LoadCommand.isCodeSignatureLC] using ih
    | other raw => simpa [LoadCommand.isCodeSignatureLC] using ih

/-- C3: the output header has `ncmds` bumped by one and `sizeofcmds` bumped
by `sizeof(linkedit_data_command)` exactly when the input has no
`LC_CODE_SIGNATURE` load command; in that case a fresh command with
`cmd = LC_CODE_SIGNATURE`, `cmdsize = sizeof(linkedit_data_command)`,
`dataoff` the 16-aligned signature file offset and `datasize` the signature
length is emitted after the copied load commands; otherwise the header is
unchanged and nothing is appended. -/
theorem c3_load_command_insertion (m : MachOBinary) (sig : List Nat)
    (hoff : m.signatureFileOffset < 2 ^ 32) (hlen : sig.length < 2 ^ 32) :
    (((outputHeader m).ncmds = m.header.ncmds + 1 ∧
      (outputHeader m).sizeofcmds = m.header.sizeofcmds + SIZEOF_LINKEDIT_DATA_COMMAND)
      ↔ m.code_signature_load_command = none) ∧
    (m.code_signature_load_command = none →
      emitHeaderAndCommands m m.signatureFileOffset sig.length
          (m.newLinkeditSegmentSize sig.length) (m.newLinkeditSegmentVmsize sig.length)
        = serializeHeader m.ctx (outputHeader m)
          ++ (m.load_commands.map (emitLoadCommand m.ctx m.signatureFileOffset sig.length
                (m.newLinkeditSegmentSize sig.length)
                (m.newLinkeditSegmentVmsize sig.length))).flatten
          ++ serializeLinkeditData m.ctx.le
              { cmd := LC_CODE_SIGNATURE, cmdsize := SIZEOF_LINKEDIT_DATA_COMMAND,
                dataoff := m.signatureFileOffset, datasize := sig.length }) ∧
    (m.code_signature_load_command ≠ none →
      outputHeader m = m.header ∧
      emitHeaderAndCommands m m.signatureFileOffset sig.length
          (m.newLinkeditSegmentSize sig.length) (m.newLinkeditSegmentVmsize sig.length)
        = serializeHeader m.ctx m.header
          ++ (m.load_commands.map (emitLoadCommand m.ctx m.signatureFileOffset sig.length
                (m.newLinkeditSegmentSize sig.length)
                (m.newLinkeditSegmentVmsize sig.length))).flatten) := by
  refine ⟨⟨?_, ?_⟩, ?_, ?_⟩
  · intro hcount
    by_contra hne
    have hheader : outputHeader m = m.header := by
      unfold outputHeader
      rw [if_neg (by simpa [Option.isNone_iff_eq_none] using hne)]
    rw [hheader] at hcount
    omega
  · intro hnone
    have : m.code_signature_load_command.isNone = true := by
      simp [Option.isNone_iff_eq_none, hnone]
    unfold outputHeader
    rw [if_pos this]
    exact ⟨rfl, rfl⟩
  · intro hnone
    have hany : m.load_commands.any LoadCommand.isCodeSignatureLC = false :=
      (code_signature_none_iff_not_any m).mp hnone
    unfold emitHeaderAndCommands
    rw [hany]
    simp only [Bool.false_eq_true, if_false]
    rw [Nat.mod_eq_of_lt hoff, Nat.mod_eq_of_lt hlen]
  · intro hsome
    have hheader : outputHeader m = m.header := by
      unfold outputHeader
      rw [if_neg (by simpa [Option.isNone_iff_eq_none] using hsome)]
    have hany : m.load_commands.any LoadCommand.isCodeSignatureLC = true := by
      by_contra hna
      exact hsome ((code_signature_none_iff_not_any m).mpr (by simpa using hna))
    refine ⟨hheader, ?_⟩
    unfold emitHeaderAndCommands
    rw [hany, hheader]
    simp

/-- Witness for C3 at the concrete image without a signature load
command. -/
theorem c3_load_command_insertion_witness :
    (((outputHeader exM1).ncmds = exM1.header.ncmds + 1 ∧
      (outputHeader exM1).sizeofcmds
        = exM1.header.sizeofcmds + SIZEOF_LINKEDIT_DATA_COMMAND)
      ↔ exM1.code_signature_load_command = none) ∧
    (exM1.code_signature_load_command = none →
      emitHeaderAndCommands exM1 exM1.signatureFileOffset (List.length [9, 9])
          (exM1.newLinkeditSegmentSize (List.length [9, 9]))
          (exM1.newLinkeditSegmentVmsize (List.length [9, 9]))
        = serializeHeader exM1.ctx (outputHeader exM1)
          ++ (exM1.load_commands.map (emitLoadCommand exM1.ctx exM1.signatureFileOffset
                (List.length [9, 9]) (exM1.newLinkeditSegmentSize (List.length [9, 9]))
                (exM1.newLinkeditSegmentVmsize (List.length [9, 9])))).flatten
          ++ serializeLinkeditData exM1.ctx.le
              { cmd := LC_CODE_SIGNATURE, cmdsize := SIZEOF_LINKEDIT_DATA_COMMAND,
                dataoff := exM1.signatureFileOffset, datasize := List.length [9, 9] }) ∧
    (exM1.code_signature_load_command ≠ none →
      outputHeader exM1 = exM1.header ∧
      emitHeaderAndCommands exM1 exM1.signatureFileOffset (List.length [9, 9])
          (exM1.newLinkeditSegmentSize (List.length [9, 9]))
          (exM1.newLinkeditSegmentVmsize (List.length [9, 9]))
        = serializeHeader exM1.ctx exM1.header
          ++ (exM1.load_commands.map (emitLoadCommand exM1.ctx exM1.signatureFileOffset
                (List.length [9, 9]) (exM1.newLinkeditSegmentSize (List.length [9, 9]))
                (exM1.newLinkeditSegmentVmsize (List.length [9, 9])))).flatten) :=
  c3_load_command_insertion exM1 [9, 9] (by decide) (by decide)

/-! ## C4 -/

/-- C4: when load commands are emitted, exactly three kinds change: an
`LC_CODE_SIGNATURE` command has only `dataoff` and `datasize` replaced, a
`__LINKEDIT` segment command (32- or 64-bit) has only `filesize` and
`vmsize` replaced, and every other load command is emitted byte-identical to
its original bytes; for every command the trailing bytes beyond the
fixed-size header are preserved verbatim. -/
theorem c4_load_command_frame_effect (ctx : Ctx) (sigOff sigLen newSize newVm : Nat) :
    (∀ c t, emitLoadCommand ctx sigOff sigLen newSize newVm (.codeSignature c t)
        = serializeLinkeditData ctx.le
            { c with dataoff := sigOff % 2 ^ 32, datasize := sigLen % 2 ^ 32 } ++ t) ∧
    (∀ s t, s.segname = SEG_LINKEDIT →
      emitLoadCommand ctx sigOff sigLen newSize newVm (.segment32 s t)
        = serializeSegment32 ctx.le
            { s with filesize := newSize % 2 ^ 32, vmsize := newVm % 2 ^ 32 } ++ t) ∧
    (∀ s t, s.segname = SEG_LINKEDIT →
      emitLoadCommand ctx sigOff sigLen newSize newVm (.segment64 s t)
        = serializeSegment64 ctx.le
            { s with filesize := newSize % 2 ^ 64, vmsize := newVm % 2 ^ 64 } ++ t) ∧
    (∀ s t, s.segname ≠ SEG_LINKEDIT →
      emitLoadCommand ctx sigOff sigLen newSize newVm (.segment32 s t)
          = (LoadCommand.segment32 s t).originalBytes ctx ∧
      emitLoadCommand ctx sigOff sigLen newSize newVm (.segment64 s t)
          = (LoadCommand.segment64 s t).originalBytes ctx) ∧
    (∀ raw, emitLoadCommand ctx sigOff sigLen newSize newVm (.other raw)
        = (LoadCommand.other raw).originalBytes ctx) := by
  refine ⟨fun c t => rfl, ?_, ?_, ?_, fun raw => rfl⟩
  · intro s t h
    simp only [emitLoadCommand]
    rw [if_pos h]
  · intro s t h
    simp only [emitLoadCommand]
    rw [if_pos h]
  · intro s t h
    constructor
    · simp only [emitLoadCommand, LoadCommand.originalBytes]
      rw [if_neg h]
    · simp only [emitLoadCommand, LoadCommand.originalBytes]
      rw [if_neg h]

/-- A non-`__LINKEDIT` segment command used by the C4 witness. -/
def exTextCmd : SegmentCommand :=
  { cmd := 1, cmdsize := 56, segname := "__TEXT", vmaddr := 0, vmsize := 4096,
    fileoff := 0, filesize := 4096, maxprot := 7, initprot := 5, nsects := 0, flags := 0 }

/-- Witness for C4: a concrete `__LINKEDIT` segment rewrite and a concrete
unchanged emission. -/
theorem c4_load_command_frame_effect_witness :
    emitLoadCommand exCtx 128 2 18 16384 (.segment32 exLinkeditCmd [3, 3])
      = serializeSegment32 exCtx.le
          { exLinkeditCmd with filesize := 18 % 2 ^ 32, vmsize := 16384 % 2 ^ 32 }
        ++ [3, 3] ∧
    emitLoadCommand exCtx 128 2 18 16384 (.segment32 exTextCmd [3, 3])
      = (LoadCommand.segment32 exTextCmd [3, 3]).originalBytes exCtx :=
  ⟨(c4_load_command_frame_effect exCtx 128 2 18 16384).2.1 exLinkeditCmd [3, 3] (by decide),
   ((c4_load_command_frame_effect exCtx 128 2 18 16384).2.2.2.1 exTextCmd [3, 3]
      (by decide)).1⟩

/-! ## C7 -/

theorem testBit_flagsDiff (a b i : Nat) :
    (flagsDiff a b).testBit i = (a.testBit i && !(b.testBit i)) := by
  unfold flagsDiff
  rw [Nat.testBit_and, Nat.testBit_xor]
  cases a.testBit i <;> cases b.testBit i <;> rfl

theorem flagsContains_two_pow (f k : Nat) :
    flagsContains f (2 ^ k) = f.testBit k := by
  unfold flagsContains
  rw [Nat.and_two_pow]
  cases h : f.testBit k
  · have h2 : 2 ^ k ≠ 0 := (pow_pos (show (0 : Nat) < 2 by norm_num) k).ne'
    simp [h2, Ne.symm h2]
  · simp

/-- Clearing a single bit with the bitflags `contains` guard: the guarded
difference clears exactly that bit. -/
theorem testBit_if_clear (f k i : Nat) :
    (if flagsContains f (2 ^ k) = true then flagsDiff f (2 ^ k) else f).testBit i
      = if i = k then false else f.testBit i := by
  by_cases hik : i = k
  · subst hik
    by_cases hc : flagsContains f (2 ^ i) = true
    · rw [if_pos hc, if_pos rfl, testBit_flagsDiff, Nat.testBit_two_pow_self]
      simp
    · rw [if_neg hc, if_pos rfl]
      rw [flagsContains_two_pow] at hc
      simpa using hc
  · rw [if_neg hik]
    by_cases hc : flagsContains f (2 ^ k) = true
    · rw [if_pos hc, testBit_flagsDiff, Nat.testBit_two_pow_of_ne (Ne.symm hik)]
      simp
    · rw [if_neg hc]

/-- Setting a single bit. -/
theorem testBit_set_bit (f k i : Nat) :
    (f ||| 2 ^ k).testBit i = if i = k then true else f.testBit i := by
  rw [Nat.testBit_or]
  by_cases hik : i = k
  · subst hik
    rw [if_pos rfl, Nat.testBit_two_pow_self]
    simp
  · rw [if_neg hik, Nat.testBit_two_pow_of_ne (Ne.symm hik)]
    simp

/-- Bitwise characterization of the Code Directory flags computation: bit 17
(`LINKER_SIGNED`) is always cleared, bit 1 (`ADHOC`) is exactly "no signing
identity", and every other bit comes from the settings flags. -/
theorem testBit_computeCdFlags (settings : SigningSettings) (i : Nat) :
    (computeCdFlags settings).testBit i
      = if i = 17 then false
        else if i = 1 then settings.signing_key.isNone
        else (settings.code_signature_flags.getD 0).testBit i := by
  unfold computeCdFlags
  have hbase : ∀ j, (match settings.code_signature_flags with
      | some additional => additional
      | none => (0 : Nat)).testBit j
      = (settings.code_signature_flags.getD 0).testBit j := by
    intro j
    cases settings.code_signature_flags <;> simp
  cases hk : settings.signing_key with
  | none =>
    simp only [Option.isNone_none, if_true]
    rw [show ADHOC = 2 ^ 1 from rfl, show LINKER_SIGNED = 2 ^ 17 from rfl]
    rw [testBit_if_clear, testBit_set_bit]
    by_cases h17 : i = 17 <;> by_cases h1 : i = 1 <;>
      simp [h17, h1, hbase]
  | some k =>
    simp only [Option.isNone_some, Bool.false_eq_true, if_false]
    rw [show ADHOC = 2 ^ 1 from rfl, show LINKER_SIGNED = 2 ^ 17 from rfl]
    rw [testBit_if_clear, testBit_if_clear]
    by_cases h17 : i = 17 <;> by_cases h1 : i = 1 <;>
      simp [h17, h1, hbase]

/-- C7: the Code Directory flags start from the settings flags; with no
signing identity `ADHOC` is set, with one it is absent even when requested;
`LINKER_SIGNED` is always absent; all other bits are taken from the
settings; and the flags stored in the built Code Directory are exactly this
computation. -/
theorem c7_code_directory_flags (settings : SigningSettings) :
    (settings.signing_key = none →
      flagsContains (computeCdFlags settings) ADHOC = true) ∧
    (∀ k, settings.signing_key = some k →
      flagsContains (computeCdFlags settings) ADHOC = false) ∧
    flagsContains (computeCdFlags settings) LINKER_SIGNED = false ∧
    (∀ i, i ≠ 1 → i ≠ 17 →
      (computeCdFlags settings).testBit i
        = (settings.code_signature_flags.getD 0).testBit i) ∧
    (∀ ext macho cd, create_code_directory ext settings macho = .ok cd →
      cd.flags = computeCdFlags settings) := by
  refine ⟨?_, ?_, ?_, ?_, ?_⟩
  · intro hkey
    rw [show ADHOC = 2 ^ 1 from rfl, flagsContains_two_pow, testBit_computeCdFlags]
    simp [hkey]
  · intro k hkey
    rw [show ADHOC = 2 ^ 1 from rfl, flagsContains_two_pow, testBit_computeCdFlags]
    simp [hkey]
  · rw [show LINKER_SIGNED = 2 ^ 17 from rfl, flagsContains_two_pow,
      testBit_computeCdFlags]
    simp
  · intro i h1 h17
    rw [testBit_computeCdFlags, if_neg h17, if_neg h1]
  · intro ext macho cd h
    simp only [create_code_directory] at h
    cases hsp : computeSpecialHashes ext settings settings.digest_type with
    | error e => rw [hsp] at h; cases h
    | ok special_hashes =>
      rw [hsp] at h
      cases hbi : settings.binary_identifier with
      | none => rw [hbi] at h; cases h
      | some ident =>
        rw [hbi] at h
        dsimp only at h
        cases h
        simp [adjustAndClear, clearNewerFields]

/-- Settings with a signing identity that request both `ADHOC` and
`LINKER_SIGNED` along with `RUNTIME`. -/
def sKeyFlags : SigningSettings :=
  { sAd with
    signing_key := some 1
    code_signature_flags := some (ADHOC ||| LINKER_SIGNED ||| RUNTIME) }

/-- A default Code Directory used to extract concrete results. -/
def cdDefault : CodeDirectoryBlob :=
  { version := 0, flags := 0, code_limit := 0, digest_size := 0,
    digest_type := DigestType.sha256, platform := 0, page_size := 0,
    code_limit_64 := none, exec_seg_base := none, exec_seg_limit := none,
    exec_seg_flags := none, runtime := none, ident := "", team_name := none,
    code_digests := [], special_digests := [] }

/-- Witness for C7: ad-hoc settings force `ADHOC`; identity settings strip
the requested `ADHOC` and `LINKER_SIGNED` but keep `RUNTIME` (bit 16); the
built Code Directory carries exactly the computed flags. -/
theorem c7_code_directory_flags_witness :
    flagsContains (computeCdFlags sAd) ADHOC = true ∧
    flagsContains (computeCdFlags sKeyFlags) ADHOC = false ∧
    flagsContains (computeCdFlags sKeyFlags) LINKER_SIGNED = false ∧
    (computeCdFlags sKeyFlags).testBit 16
      = (sKeyFlags.code_signature_flags.getD 0).testBit 16 ∧
    (okD (create_code_directory extTriv sAd exM1) cdDefault).flags
      = computeCdFlags sAd :=
  ⟨(c7_code_directory_flags sAd).1 rfl,
   (c7_code_directory_flags sKeyFlags).2.1 1 rfl,
   (c7_code_directory_flags sKeyFlags).2.2.1,
   (c7_code_directory_flags sKeyFlags).2.2.2.1 16 (by decide) (by decide),
   (c7_code_directory_flags sAd).2.2.2.2 extTriv exM1
     (okD (create_code_directory extTriv sAd exM1) cdDefault) (by decide)⟩

/-! ## C5 -/

/-- Counterexample to C5 as stated: on a non-`MH_EXECUTE` binary the
constructed Code Directory still carries `exec_seg_base` and
`exec_seg_limit` (only `exec_seg_flags` is absent), so the
executable-segment fields are not all absent. -/
theorem c5_exec_seg_counterexample :
    exM2.is_executable = false ∧
    isOkE (create_code_directory extTriv sAd exM2) = true ∧
    (okD (create_code_directory extTriv sAd exM2) cdDefault).exec_seg_base = some 0 ∧
    (okD (create_code_directory extTriv sAd exM2) cdDefault).exec_seg_limit
      = some 4096 ∧
    (okD (create_code_directory extTriv sAd exM2) cdDefault).exec_seg_flags = none := by
  decide

/-- C5 (amended): `exec_seg_base` and `exec_seg_limit` are always populated
from the executable segment's bounds, whatever the file type; only
`exec_seg_flags` is conditional on `MH_EXECUTE` — for an executable it is
`MAIN_BINARY` OR-ed with the flags derived from the entitlements plist
(just `MAIN_BINARY` without a plist), and for a non-executable it is
absent. -/
theorem c5_exec_seg_fields_amended (ext : Externals) (settings : SigningSettings)
    (macho : MachOBinary) (cd : CodeDirectoryBlob)
    (h : create_code_directory ext settings macho = .ok cd) :
    cd.exec_seg_base = some macho.executable_segment_boundary.1 ∧
    cd.exec_seg_limit = some macho.executable_segment_boundary.2 ∧
    (macho.is_executable = true →
      (∀ p, settings.entitlements_plist = some p →
        cd.exec_seg_flags
          = some (ext.plist_to_executable_segment_flags p ||| MAIN_BINARY)) ∧
      (settings.entitlements_plist = none → cd.exec_seg_flags = some MAIN_BINARY)) ∧
    (macho.is_executable = false → cd.exec_seg_flags = none) := by
  simp only [create_code_directory] at h
  cases hsp : computeSpecialHashes ext settings settings.digest_type with
  | error e => rw [hsp] at h; cases h
  | ok special_hashes =>
    rw [hsp] at h
    cases hbi : settings.binary_identifier with
    | none => rw [hbi] at h; cases h
    | some ident =>
      rw [hbi] at h
      dsimp only at h
      cases h
      have hv : ¬ adjustVersion
          { version := 0, flags := computeCdFlags settings,
            code_limit := (if macho.code_limit_binary_offset > U32_MAX
              then ((0 : Nat), some macho.code_limit_binary_offset)
              else (macho.code_limit_binary_offset, none)).1,
            digest_size := digest_len settings.digest_type,
            digest_type := settings.digest_type, platform := 0, page_size := 4096,
            code_limit_64 := (if macho.code_limit_binary_offset > U32_MAX
              then ((0 : Nat), some macho.code_limit_binary_offset)
              else (macho.code_limit_binary_offset, none)).2,
            exec_seg_base := some macho.executable_segment_boundary.1,
            exec_seg_limit := some macho.executable_segment_boundary.2,
            exec_seg_flags :=
              if macho.is_executable = true then
                match settings.entitlements_plist with
                | some entitlements =>
                    some (ext.plist_to_executable_segment_flags entitlements ||| MAIN_BINARY)
                | none => some MAIN_BINARY
              else none,
            runtime := computeRuntime ext settings macho.find_targeting
              (computeCdFlags settings),
            ident := ident, team_name := settings.team_id,
            code_digests := macho.code_digests settings.digest_type 4096,
            special_digests := special_hashes } < 0x20400 := by
        simp only [adjustVersion, Option.isSome_some, Bool.true_or, if_true]
        refine Nat.not_lt.mpr ?_
        exact (Nat.le_max_left 132096 _).trans
          ((Nat.le_max_right _ _).trans
            ((Nat.le_max_right _ _).trans (Nat.le_max_right _ _)))
      refine ⟨?_, ?_, ?_, ?_⟩
      · simp only [adjustAndClear, clearNewerFields]
        rw [if_neg hv]
      · simp only [adjustAndClear, clearNewerFields]
        rw [if_neg hv]
      · intro hexec
        constructor
        · intro p hp
          simp only [adjustAndClear, clearNewerFields]
          rw [if_neg hv]
          simp [hexec, hp]
        · intro hp
          simp only [adjustAndClear, clearNewerFields]
          rw [if_neg hv]
          simp [hexec, hp]
      · intro hexec
        simp only [adjustAndClear, clearNewerFields]
        rw [if_neg hv]
        simp [hexec]

/-- Settings with an entitlements plist. -/
def sPlist : SigningSettings := { sAd with entitlements_plist := some { raw := [1] } }

/-- Witness for C5 on a concrete executable with an entitlements plist. -/
theorem c5_exec_seg_fields_amended_witness :
    (okD (create_code_directory extTriv sPlist exM1) cdDefault).exec_seg_base
      = some exM1.executable_segment_boundary.1 ∧
    (okD (create_code_directory extTriv sPlist exM1) cdDefault).exec_seg_limit
      = some exM1.executable_segment_boundary.2 ∧
    (exM1.is_executable = true →
      (∀ p, sPlist.entitlements_plist = some p →
        (okD (create_code_directory extTriv sPlist exM1) cdDefault).exec_seg_flags
          = some (extTriv.plist_to_executable_segment_flags p ||| MAIN_BINARY)) ∧
      (sPlist.entitlements_plist = none →
        (okD (create_code_directory extTriv sPlist exM1) cdDefault).exec_seg_flags
          = some MAIN_BINARY)) ∧
    (exM1.is_executable = false →
      (okD (create_code_directory extTriv sPlist exM1) cdDefault).exec_seg_flags
        = none) :=
  c5_exec_seg_fields_amended extTriv sPlist exM1
    (okD (create_code_directory extTriv sPlist exM1) cdDefault) (by decide)

/-! ## C9 -/

/-- The sum the specification's formula accumulates before the final 1 KiB
rounding. -/
def preRoundSize (extraCount primaryDigestsSize : Nat)
    (extraDigestsSizes : List Nat) (blobsLen certsLen : Nat) (hasTsa : Bool) : Nat :=
  1024 * (1 + extraCount) + primaryDigestsSize + extraDigestsSizes.sum
    + blobsLen + 4096 + certsLen + (if hasTsa then 8192 else 0)

/-- Rounding up past the next 1 KiB boundary respects equality of the
pre-rounding sums. -/
theorem roundup1024_congr (x y : Nat) (h : x = y) :
    x + (1024 - x % 1024) = y + (1024 - y % 1024) := by rw [h]

/-- C9: the estimator returns exactly the specification's formula — the
pre-rounding sum plus `1024 - sum % 1024` — so the result is a positive
multiple of 1024 and strictly greater than the pre-rounding sum. -/
theorem c9_estimate_size_formula (ext : Externals) (macho : MachOBinary)
    (settings : SigningSettings) (blobs : List (CodeSigningSlot × BlobData))
    (blobsLen : Nat)
    (hcsb : create_special_blobs ext settings true = .ok blobs)
    (hlen : blobBytesLengths ext blobs = .ok blobsLen) :
    estimate_embedded_signature_size ext macho settings
      = .ok (estimateSpecFormula (settings.extra_digests.getD []).length
          (macho.code_digests_size settings.digest_type 4096)
          ((settings.extra_digests.getD []).map fun d => macho.code_digests_size d 4096)
          blobsLen ((settings.certificate_chain.map List.length).sum)
          settings.time_stamp_url.isSome) ∧
    estimateSpecFormula (settings.extra_digests.getD []).length
        (macho.code_digests_size settings.digest_type 4096)
        ((settings.extra_digests.getD []).map fun d => macho.code_digests_size d 4096)
        blobsLen ((settings.certificate_chain.map List.length).sum)
        settings.time_stamp_url.isSome % 1024 = 0 ∧
    0 < estimateSpecFormula (settings.extra_digests.getD []).length
        (macho.code_digests_size settings.digest_type 4096)
        ((settings.extra_digests.getD []).map fun d => macho.code_digests_size d 4096)
        blobsLen ((settings.certificate_chain.map List.length).sum)
        settings.time_stamp_url.isSome ∧
    preRoundSize (settings.extra_digests.getD []).length
        (macho.code_digests_size settings.digest_type 4096)
        ((settings.extra_digests.getD []).map fun d => macho.code_digests_size d 4096)
        blobsLen ((settings.certificate_chain.map List.length).sum)
        settings.time_stamp_url.isSome
      < estimateSpecFormula (settings.extra_digests.getD []).length
        (macho.code_digests_size settings.digest_type 4096)
        ((settings.extra_digests.getD []).map fun d => macho.code_digests_size d 4096)
        blobsLen ((settings.certificate_chain.map List.length).sum)
        settings.time_stamp_url.isSome := by
  have hspec : estimateSpecFormula (settings.extra_digests.getD []).length
      (macho.code_digests_size settings.digest_type 4096)
      ((settings.extra_digests.getD []).map fun d => macho.code_digests_size d 4096)
      blobsLen ((settings.certificate_chain.map List.length).sum)
      settings.time_stamp_url.isSome
      = preRoundSize (settings.extra_digests.getD []).length
          (macho.code_digests_size settings.digest_type 4096)
          ((settings.extra_digests.getD []).map fun d => macho.code_digests_size d 4096)
          blobsLen ((settings.certificate_chain.map List.length).sum)
          settings.time_stamp_url.isSome
        + (1024 - preRoundSize (settings.extra_digests.getD []).length
            (macho.code_digests_size settings.digest_type 4096)
            ((settings.extra_digests.getD []).map fun d => macho.code_digests_size d 4096)
            blobsLen ((settings.certificate_chain.map List.length).sum)
            settings.time_stamp_url.isSome % 1024) := by
    simp only [estimateSpecFormula, preRoundSize]
  refine ⟨?_, ?_, ?_, ?_⟩
  · clear hspec
    simp only [estimate_embedded_signature_size, hcsb, hlen]
    simp only [estimateSpecFormula, preRoundSize]
    cases hx : settings.extra_digests <;> cases ht : settings.time_stamp_url <;>
      simp only [Option.getD_none, Option.getD_some, Option.isSome_none,
        Option.isSome_some, Bool.false_eq_true, if_false, if_true, ite_false, ite_true,
        List.map_nil, List.sum_nil, List.length_nil] <;>
      exact congrArg Except.ok (roundup1024_congr _ _ (by omega))
  · rw [hspec]
    omega
  · rw [hspec]
    have := Nat.mod_lt (preRoundSize (settings.extra_digests.getD []).length
      (macho.code_digests_size settings.digest_type 4096)
      ((settings.extra_digests.getD []).map fun d => macho.code_digests_size d 4096)
      blobsLen ((settings.certificate_chain.map List.length).sum)
      settings.time_stamp_url.isSome) (show 0 < 1024 by omega)
    omega
  · rw [hspec]
    have := Nat.mod_lt (preRoundSize (settings.extra_digests.getD []).length
      (macho.code_digests_size settings.digest_type 4096)
      ((settings.extra_digests.getD []).map fun d => macho.code_digests_size d 4096)
      blobsLen ((settings.certificate_chain.map List.length).sum)
      settings.time_stamp_url.isSome) (show 0 < 1024 by omega)
    omega

/-- An estimateSpecFormula abbreviation check: the formula is the rounded
pre-round sum. -/
theorem c9_estimate_size_formula_witness :
    estimate_embedded_signature_size extTriv exM1 sAd
      = .ok (estimateSpecFormula (sAd.extra_digests.getD []).length
          (exM1.code_digests_size sAd.digest_type 4096)
          ((sAd.extra_digests.getD []).map fun d => exM1.code_digests_size d 4096)
          0 ((sAd.certificate_chain.map List.length).sum) sAd.time_stamp_url.isSome) ∧
    estimateSpecFormula (sAd.extra_digests.getD []).length
        (exM1.code_digests_size sAd.digest_type 4096)
        ((sAd.extra_digests.getD []).map fun d => exM1.code_digests_size d 4096)
        0 ((sAd.certificate_chain.map List.length).sum) sAd.time_stamp_url.isSome
      % 1024 = 0 ∧
    0 < estimateSpecFormula (sAd.extra_digests.getD []).length
        (exM1.code_digests_size sAd.digest_type 4096)
        ((sAd.extra_digests.getD []).map fun d => exM1.code_digests_size d 4096)
        0 ((sAd.certificate_chain.map List.length).sum) sAd.time_stamp_url.isSome ∧
    preRoundSize (sAd.extra_digests.getD []).length
        (exM1.code_digests_size sAd.digest_type 4096)
        ((sAd.extra_digests.getD []).map fun d => exM1.code_digests_size d 4096)
        0 ((sAd.certificate_chain.map List.length).sum) sAd.time_stamp_url.isSome
      < estimateSpecFormula (sAd.extra_digests.getD []).length
        (exM1.code_digests_size sAd.digest_type 4096)
        ((sAd.extra_digests.getD []).map fun d => exM1.code_digests_size d 4096)
        0 ((sAd.certificate_chain.map List.length).sum) sAd.time_stamp_url.isSome :=
  c9_estimate_size_formula extTriv exM1 sAd
    [(CodeSigningSlot.RequirementSet, BlobData.requirementSet [])] 0 (by decide) (by decide)

/-! ## C2 -/

/-- C2: for every slice, if the SuperBlob produced by `create_superblob` is
longer than the reservation computed by `estimate_embedded_signature_size`,
signing fails with `SignatureDataTooLarge` and no final slice is produced;
if shorter, it is right-padded with zeros to exactly the reservation length
before the second rewrite; if equal, it is used as-is. -/
theorem c2_signature_reservation_padding (ext : Externals)
    (settings : SigningSettings) (m : MachOBinary) (r : Nat)
    (idata : List Nat) (im : MachOBinary) (real : List Nat)
    (hest : estimate_embedded_signature_size ext m settings = .ok r)
    (hrw : create_macho_with_signature m (List.replicate r 0) = .ok idata)
    (hparse : ext.parse_macho idata = .ok im)
    (hsb : create_superblob ext settings im = .ok real) :
    (r < real.length → (sign_macho_slice ext settings m).2
        = .error (.err .SignatureDataTooLarge)) ∧
    (real.length = r → (sign_macho_slice ext settings m).2
        = create_macho_with_signature im real) ∧
    (real.length < r →
      (sign_macho_slice ext settings m).2
        = create_macho_with_signature im
            (real ++ List.replicate ((List.replicate r 0).length - real.length) 0)
      ∧ (real ++ List.replicate ((List.replicate r 0).length - real.length) 0).length
          = r) := by
  refine ⟨?_, ?_, ?_⟩
  · intro hgt
    have hc : compare real.length (List.replicate r 0).length = .gt := by
      rw [List.length_replicate]
      exact Nat.compare_eq_gt.mpr hgt
    simp only [sign_macho_slice, hest, hrw, hparse, hsb, hc]
  · intro heq
    have hc : compare real.length (List.replicate r 0).length = .eq := by
      rw [List.length_replicate]
      exact Nat.compare_eq_eq.mpr heq
    simp only [sign_macho_slice, hest, hrw, hparse, hsb, hc]
  · intro hlt
    have hc : compare real.length (List.replicate r 0).length = .lt := by
      rw [List.length_replicate]
      exact Nat.compare_eq_lt.mpr hlt
    constructor
    · simp only [sign_macho_slice, hest, hrw, hparse, hsb, hc]
    · simp only [List.length_append, List.length_replicate]
      omega

theorem length_put32 (e : Endian) (n : Nat) : (put32 e n).length = 4 := by
  cases e <;> rfl

theorem length_put64 (e : Endian) (n : Nat) : (put64 e n).length = 8 := by
  cases e <;> rfl

theorem length_putSegname (s : String) : (putSegname s).length = 16 := by
  simp only [putSegname, List.length_append, List.length_replicate, List.length_take]
  omega

theorem length_serializeLinkeditData (e : Endian) (c : LinkeditDataCommand) :
    (serializeLinkeditData e c).length = 16 := by
  simp [serializeLinkeditData, List.length_append, length_put32]

theorem length_serializeSegment32 (e : Endian) (s : SegmentCommand) :
    (serializeSegment32 e s).length = 56 := by
  simp [serializeSegment32, List.length_append, length_put32, length_putSegname]

theorem length_serializeSegment64 (e : Endian) (s : SegmentCommand) :
    (serializeSegment64 e s).length = 72 := by
  simp [serializeSegment64, List.length_append, length_put32, length_put64,
    length_putSegname]

theorem length_serializeHeader (ctx : Ctx) (h : MachOHeader) :
    (serializeHeader ctx h).length = if ctx.is64 then 32 else 28 := by
  cases hc : ctx.is64 <;>
    simp [serializeHeader, List.length_append, length_put32, hc]

/-- The example image's header and load commands always serialize to 100
bytes, whatever offsets are being patched in. -/
theorem length_emitHeaderAndCommands_exM1 (sigOff n sz vm : Nat) :
    (emitHeaderAndCommands exM1 sigOff n sz vm).length = 100 := by
  simp only [emitHeaderAndCommands,
    show exM1.load_commands = [LoadCommand.segment32 exLinkeditCmd []] from rfl,
    List.map_cons, List.map_nil, List.any_cons, List.any_nil]
  simp only [emitLoadCommand, LoadCommand.isCodeSignatureLC, Bool.or_false]
  rw [if_pos (show exLinkeditCmd.segname = SEG_LINKEDIT from rfl)]
  simp only [Bool.false_eq_true, if_false]
  simp [List.length_append, length_serializeHeader, length_serializeSegment32,
    length_serializeLinkeditData, show exM1.ctx = exCtx from rfl, exCtx]

/-- The 12 gap bytes copied before the example `__LINKEDIT` segment. -/
theorem length_gap_exM1 : (listSlice exM1.data 100 112).length = 12 := by
  rw [show exM1.data = List.replicate 112 0 from rfl]
  simp [listSlice]

/-- Symbolic run of the segment loop of the example image from any 100-byte
buffer. -/
theorem writeSegments_exM1_generic (sig out : List Nat) (hlen : out.length = 100) :
    writeSegments exM1 128 12 sig [exLinkeditSeg] out false
      = .ok ((out ++ listSlice exM1.data 100 112)
          ++ [1, 2, 3, 4] ++ List.replicate 12 0 ++ sig) := by
  have hpad : segmentPad exM1 out false exLinkeditSeg
      = .ok (out ++ listSlice exM1.data 100 112) := by
    unfold segmentPad
    rw [show exLinkeditSeg.fileoff = 112 from rfl, hlen]
    rw [if_pos (by omega : (100 : Nat) < 112)]
    rw [if_pos (by rw [show exM1.data = List.replicate 112 0 from rfl,
      List.length_replicate] : (112 : Nat) ≤ exM1.data.length)]
  have hdata : writeSegmentData exM1 128 12 sig (out ++ listSlice exM1.data 100 112)
      false exLinkeditSeg
      = .ok ((out ++ listSlice exM1.data 100 112)
          ++ [1, 2, 3, 4] ++ List.replicate 12 0 ++ sig, true) := by
    unfold writeSegmentData
    rw [if_pos (show exLinkeditSeg.segname = SEG_LINKEDIT from rfl)]
    rw [show exM1.linkedit_data_before_signature = some [1, 2, 3, 4] from rfl]
    dsimp only
    simp [hlen, length_gap_exM1]
  have hone : writeOneSegment exM1 128 12 sig out false exLinkeditSeg
      = .ok ((out ++ listSlice exM1.data 100 112)
          ++ [1, 2, 3, 4] ++ List.replicate 12 0 ++ sig, true) := by
    unfold writeOneSegment
    rw [if_neg (show ¬ exLinkeditSeg.segname = SEG_PAGEZERO from by decide)]
    rw [hpad]
    dsimp only
    exact hdata
  unfold writeSegments
  rw [hone]
  rfl

/-- Symbolic evaluation of the rewriter on the example image: the output is
the emitted header and commands, the 12 gap bytes, the retained `__LINKEDIT`
bytes, the 12 alignment zeros, and the signature.  Stated for an arbitrary
signature so that no large list is ever evaluated. -/
theorem create_macho_exM1_eq (sig : List Nat) :
    create_macho_with_signature exM1 sig
      = .ok ((emitHeaderAndCommands exM1 128 sig.length
              (exM1.newLinkeditSegmentSize sig.length)
              (exM1.newLinkeditSegmentVmsize sig.length)
            ++ listSlice exM1.data 100 112)
          ++ [1, 2, 3, 4] ++ List.replicate 12 0 ++ sig) := by
  have h1 : ¬ (exM1.newLinkeditSegmentVmsize sig.length
      < exM1.newLinkeditSegmentSize sig.length) := Nat.not_lt.mpr (le_roundUp16k _)
  have h2 : ¬ (exM1.newLinkeditSegmentVmsize sig.length % 16384 ≠ 0) :=
    not_not_intro (roundUp16k_mod _)
  unfold create_macho_with_signature
  rw [show exM1.signing_capability_error = none from rfl,
      show exM1.linkedit_data_before_signature = some [1, 2, 3, 4] from rfl]
  dsimp only
  rw [if_neg h1, if_neg h2]
  rw [show exM1.signatureFileOffset = 128 from rfl,
      show signaturePaddingLength exM1.code_limit_binary_offset = 12 from rfl,
      show exM1.segments = [exLinkeditSeg] from rfl]
  exact writeSegments_exM1_generic sig _ (length_emitHeaderAndCommands_exM1 _ _ _ _)

/-- The intermediate image bytes for the example slice (6144-byte
reservation), kept in unevaluated form. -/
def exIntermediate : List Nat :=
  (emitHeaderAndCommands exM1 128 (List.replicate 6144 (0 : Nat)).length
      (exM1.newLinkeditSegmentSize (List.replicate 6144 (0 : Nat)).length)
      (exM1.newLinkeditSegmentVmsize (List.replicate 6144 (0 : Nat)).length)
    ++ listSlice exM1.data 100 112)
  ++ [1, 2, 3, 4] ++ List.replicate 12 0 ++ List.replicate 6144 (0 : Nat)

/-- Witness for C2: the overflowing SuperBlob fails, the exact-size one is
used as-is, the short one is zero-padded to the reservation. -/
theorem c2_signature_reservation_padding_witness :
    (sign_macho_slice extBig sAd exM1).2 = .error (.err .SignatureDataTooLarge) ∧
    (sign_macho_slice extEq sAd exM1).2
      = create_macho_with_signature exM1 (List.replicate 6144 0) ∧
    ((sign_macho_slice extSmall sAd exM1).2
      = create_macho_with_signature exM1
          (List.replicate 100 0
            ++ List.replicate ((List.replicate 6144 (0 : Nat)).length
                  - (List.replicate 100 (0 : Nat)).length) 0)
      ∧ (List.replicate 100 (0 : Nat)
          ++ List.replicate ((List.replicate 6144 (0 : Nat)).length
                - (List.replicate 100 (0 : Nat)).length) 0).length = 6144) :=
  ⟨(c2_signature_reservation_padding extBig sAd exM1 6144 exIntermediate exM1
      (List.replicate 6145 0) rfl (by rw [create_macho_exM1_eq]; rfl) rfl rfl).1
      (by rw [List.length_replicate]; omega),
   (c2_signature_reservation_padding extEq sAd exM1 6144 exIntermediate exM1
      (List.replicate 6144 0) rfl (by rw [create_macho_exM1_eq]; rfl) rfl rfl).2.1
      (by rw [List.length_replicate]),
   (c2_signature_reservation_padding extSmall sAd exM1 6144 exIntermediate exM1
      (List.replicate 100 0) rfl (by rw [create_macho_exM1_eq]; rfl) rfl rfl).2.2
      (by rw [List.length_replicate]; omega)⟩

/-! ## C6 -/

/-- Counterexample to C6 as stated: with no binary identifier and no signing
identity (ad-hoc), signing does fail with `NoIdentifier`, but only after the
rewriter has produced the intermediate buffer — the `rewrite` stage is in
the trace. -/
theorem c6_no_identifier_counterexample :
    sNoId.binary_identifier = none ∧
    (sign_macho_slice extTriv sNoId exM1).2 = .error (.err .NoIdentifier) ∧
    SignEvent.rewrite ∈ (sign_macho_slice extTriv sNoId exM1).1 := by
  have hest : estimate_embedded_signature_size extTriv exM1 sNoId = .ok 6144 := rfl
  have hrw2 : create_macho_with_signature exM1 (List.replicate 6144 0)
      = .ok exIntermediate := by
    rw [create_macho_exM1_eq]
    rfl
  have hparse : extTriv.parse_macho exIntermediate = .ok exM1 := rfl
  have hsb : create_superblob extTriv sNoId exM1 = .error .NoIdentifier := rfl
  refine ⟨rfl, ?_, ?_⟩
  · simp only [sign_macho_slice, hest, hrw2, hparse, hsb]
  · simp only [sign_macho_slice, hest, hrw2, hparse, hsb]
    decide

/-- C6 (amended): with the binary identifier missing, signing fails with
`NoIdentifier`; the failure precedes any rewrite exactly when a signing
identity is present and the designated-requirement mode is `Auto` (the
identifier is then demanded during size estimation); otherwise — in
particular for ad-hoc signing — the rewriter first produces the
intermediate Mach-O with the placeholder reservation and the failure is
raised while building the code directory. -/
theorem c6_no_identifier_amended (ext : Externals) (settings : SigningSettings)
    (m : MachOBinary) (hid : settings.binary_identifier = none) :
    (∀ k, settings.signing_key = some k →
      settings.designated_requirement = DesignatedRequirementMode.auto →
      sign_macho_slice ext settings m
        = ([SignEvent.estimateSize], .error (.err .NoIdentifier))) ∧
    (∀ r idata im blobs sh,
      estimate_embedded_signature_size ext m settings = .ok r →
      create_macho_with_signature m (List.replicate r 0) = .ok idata →
      ext.parse_macho idata = .ok im →
      create_special_blobs ext settings im.is_executable = .ok blobs →
      computeSpecialHashes ext settings settings.digest_type = .ok sh →
      (sign_macho_slice ext settings m).2 = .error (.err .NoIdentifier) ∧
      SignEvent.rewrite ∈ (sign_macho_slice ext settings m).1) := by
  constructor
  · intro k hkey hauto
    have hreq : requirementsStep ext settings = .error .NoIdentifier := by
      unfold requirementsStep
      rw [hauto]
      dsimp only
      rw [hkey]
      dsimp only
      rw [hid]
    have hcsb : create_special_blobs ext settings true = .error .NoIdentifier := by
      unfold create_special_blobs
      rw [hreq]
    have hest : estimate_embedded_signature_size ext m settings
        = .error .NoIdentifier := by
      unfold estimate_embedded_signature_size
      rw [hcsb]
    simp only [sign_macho_slice, hest]
  · intro r idata im blobs sh hest hrw hparse hcsb hsh
    have hcd : create_code_directory ext settings im = .error .NoIdentifier := by
      simp only [create_code_directory]
      rw [hsh]
      dsimp only
      rw [hid]
    have hsb : create_superblob ext settings im = .error .NoIdentifier := by
      unfold create_superblob
      rw [hcsb]
      dsimp only
      rw [hcd]
    constructor
    · simp only [sign_macho_slice, hest, hrw, hparse, hsb]
    · simp only [sign_macho_slice, hest, hrw, hparse, hsb]
      decide

/-- Witness for C6: with a signing identity in `Auto` mode and no
identifier, the failure is raised during estimation with no rewrite; for
ad-hoc settings the rewrite happens first. -/
theorem c6_no_identifier_amended_witness :
    sign_macho_slice extTriv sKeyNoId exM1
      = ([SignEvent.estimateSize], .error (.err .NoIdentifier)) ∧
    ((sign_macho_slice extTriv sNoId exM1).2 = .error (.err .NoIdentifier) ∧
      SignEvent.rewrite ∈ (sign_macho_slice extTriv sNoId exM1).1) :=
  ⟨(c6_no_identifier_amended extTriv sKeyNoId exM1 rfl).1 1 rfl rfl,
   (c6_no_identifier_amended extTriv sNoId exM1 rfl).2 6144 exIntermediate exM1
     [(CodeSigningSlot.RequirementSet, BlobData.requirementSet [])] []
     rfl (by rw [create_macho_exM1_eq]; rfl) rfl rfl rfl⟩

end MachoSigning
